import Mathlib

/-
  Verification development for BettaFish ReportEngine/renderers/markdown_renderer.py.

  The Python module is shallowly embedded: Python values that flow through the
  renderer are modelled by the inductive type `Val` (None, bool, int, str, list,
  dict with string keys, in insertion order).  Python floats never occur in the
  claims and are not modelled.  Fallible Python operations (attribute access on
  a non-dict, iteration of a non-iterable, `int(...)` conversion, comparisons
  between str and int, indexing) are modelled in `Except PyErr`; the renderer
  functions that may log run in `RM`, a state monad carrying the list of
  diagnostics emitted through the logging sink, layered over `Except PyErr`.

  Recursive renderer functions take an explicit fuel parameter; exhausting the
  fuel yields `PyErr.recursionError`, modelling Python recursion-limit
  exhaustion on deeply nested IR (the source has no explicit depth guard).
-/

namespace BettaFish

/-- A Python runtime error class, as far as the renderer can raise one. -/
inductive PyErr where
  | typeError
  | attributeError
  | valueError
  | keyError
  | indexError
  | recursionError
deriving DecidableEq

/-- A JSON-like Python value as handled by the renderer. -/
inductive Val where
  | none
  | bool (b : Bool)
  | int (n : Int)
  | str (s : String)
  | list (xs : List Val)
  | dict (fields : List (String × Val))

mutual

/-- Python `==` on the modelled values (structural equality; Python's
numeric cross-type equalities such as `True == 1` are irrelevant to the
renderer, which only compares against string literals). -/
def Val.beq : Val → Val → Bool
  | .none, .none => true
  | .bool a, .bool b => a == b
  | .int a, .int b => a == b
  | .str a, .str b => a == b
  | .list xs, .list ys => Val.beqL xs ys
  | .dict xs, .dict ys => Val.beqF xs ys
  | _, _ => false

def Val.beqL : List Val → List Val → Bool
  | [], [] => true
  | x :: xs, y :: ys => Val.beq x y && Val.beqL xs ys
  | _, _ => false

def Val.beqF : List (String × Val) → List (String × Val) → Bool
  | [], [] => true
  | (k1, v1) :: xs, (k2, v2) :: ys => k1 == k2 && Val.beq v1 v2 && Val.beqF xs ys
  | _, _ => false

end

/-- Python truthiness: `bool(v)`. -/
def truthy : Val → Bool
  | .none => false
  | .bool b => b
  | .int n => n != 0
  | .str s => s != ""
  | .list xs => !xs.isEmpty
  | .dict fs => !fs.isEmpty

/-- Python `a or b` (short-circuit by truthiness). -/
def pyOr (a b : Val) : Val := if truthy a then a else b

/-- First-match association lookup, like a Python dict with string keys. -/
def dlookup (k : String) : List (String × Val) → Option Val
  | [] => Option.none
  | (k2, v) :: rest => if k2 = k then some v else dlookup k rest

/-- Lookup `d.get(k)` on a known dict, returning None when absent. -/
def dgetD (fs : List (String × Val)) (k : String) (dflt : Val) : Val :=
  match dlookup k fs with
  | some v => v
  | Option.none => dflt

/-- Python `v.get(k)`: AttributeError unless `v` is a dict. -/
def pyGet (v : Val) (k : String) : Except PyErr Val :=
  match v with
  | .dict fs => .ok (dgetD fs k .none)
  | _ => .error .attributeError

/-- Python `v.get(k, dflt)`: AttributeError unless `v` is a dict. -/
def pyGetD (v : Val) (k : String) (dflt : Val) : Except PyErr Val :=
  match v with
  | .dict fs => .ok (dgetD fs k dflt)
  | _ => .error .attributeError

/-- Python iteration `for x in v`: lists yield elements, strings yield
one-character strings, dicts yield their keys; anything else raises
TypeError. -/
def pyIter (v : Val) : Except PyErr (List Val) :=
  match v with
  | .list xs => .ok xs
  | .str s => .ok (s.data.map (fun c => .str (String.mk [c])))
  | .dict fs => .ok (fs.map (fun p => .str p.1))
  | _ => .error .typeError

/-- Python `len(v)`. -/
def pyLen (v : Val) : Except PyErr Nat :=
  match v with
  | .list xs => .ok xs.length
  | .str s => .ok s.data.length
  | .dict fs => .ok fs.length
  | _ => .error .typeError

/-- Python `v[i]` for a non-negative index. -/
def pyIndex (v : Val) (i : Nat) : Except PyErr Val :=
  match v with
  | .list xs => if i < xs.length then .ok (xs.getD i .none) else .error .indexError
  | .str s =>
      if i < s.data.length then .ok (.str (String.mk [s.data.getD i ' ']))
      else .error .indexError
  | .dict _ => .error .keyError
  | _ => .error .typeError

/-- Python `v[1:]`. -/
def pySlice1 (v : Val) : Except PyErr Val :=
  match v with
  | .list xs => .ok (.list xs.tail)
  | .str s => .ok (.str (String.mk s.data.tail))
  | _ => .error .typeError

/-- The characters Python `str.strip()` removes (ASCII whitespace; the
renderer never emits other Unicode whitespace at a string boundary). -/
def isPySpace (c : Char) : Bool :=
  c = ' ' || c = '\t' || c = '\n' || c = '\r' || c = '\x0b' || c = '\x0c'

/-- Strip leading and trailing whitespace from a character list. -/
def stripChars (l : List Char) : List Char :=
  ((l.dropWhile isPySpace).reverse.dropWhile isPySpace).reverse

/-- Python `s.strip()`. -/
def pyStrip (s : String) : String := String.mk (stripChars s.data)

/-- Replace every occurrence of the character `c` by the character list `rep`
(`str.replace` with a one-character pattern). -/
def replList (c : Char) (rep : List Char) : List Char → List Char
  | [] => []
  | a :: as => (if a = c then rep else [a]) ++ replList c rep as

/-- Python `sep.join(xs)`. -/
def pyJoin (sep : String) : List String → String
  | [] => ""
  | [x] => x
  | x :: xs => x ++ sep ++ pyJoin sep xs

/-- Repeat a string `n` times (`s * n`). -/
def strRepeat : Nat → String → String
  | 0, _ => ""
  | n + 1, s => s ++ strRepeat n s

/-- Does `p` occur at the start of `s`? (`str.startswith`) -/
def charsStart : List Char → List Char → Bool
  | [], _ => true
  | _ :: _, [] => false
  | p :: ps, c :: cs => p = c && charsStart ps cs

/-- Does `pat` occur somewhere inside `s`? (Python `pat in s`) -/
def charsHas (pat : List Char) : List Char → Bool
  | [] => pat.isEmpty
  | c :: cs => charsStart pat (c :: cs) || charsHas pat cs

/-- Python `str.splitlines()`: split on newline / carriage-return /
CRLF line boundaries, without a trailing empty line. -/
def splitlinesAux : List Char → List Char → List (List Char)
  | cur, [] => if cur.isEmpty then [] else [cur.reverse]
  | cur, '\r' :: '\n' :: rest => cur.reverse :: splitlinesAux [] rest
  | cur, '\n' :: rest => cur.reverse :: splitlinesAux [] rest
  | cur, '\r' :: rest => cur.reverse :: splitlinesAux [] rest
  | cur, c :: rest => splitlinesAux (c :: cur) rest

/-- Python `s.splitlines()`. -/
def pySplitlines (s : String) : List String :=
  (splitlinesAux [] s.data).map String.mk

/-- Accumulating decimal parse. -/
def parseDigitsAux (acc : Nat) : List Char → Option Nat
  | [] => some acc
  | c :: cs =>
      if c.isDigit then parseDigitsAux (acc * 10 + (c.toNat - 48)) cs
      else Option.none

/-- All-decimal-digit parse of a non-empty character list. -/
def parseDigits : List Char → Option Nat
  | [] => Option.none
  | l => parseDigitsAux 0 l

/-- Python `int(v)`: ints pass through, bools coerce to 0/1, strings are
parsed (surrounding whitespace and an optional sign allowed, digit-group
underscores not modelled) raising ValueError on failure; other values raise
TypeError. -/
def pyInt (v : Val) : Except PyErr Int :=
  match v with
  | .int n => .ok n
  | .bool b => .ok (if b then 1 else 0)
  | .str s =>
      let t := stripChars s.data
      match t with
      | '-' :: ds =>
          match parseDigits ds with
          | some n => .ok (-(n : Int))
          | Option.none => .error .valueError
      | '+' :: ds =>
          match parseDigits ds with
          | some n => .ok (n : Int)
          | Option.none => .error .valueError
      | ds =>
          match parseDigits ds with
          | some n => .ok (n : Int)
          | Option.none => .error .valueError
  | _ => .error .typeError

/-- Comparison coercion used by `min`/`max`: only ints (and bools, which are
ints in Python) compare against int literals; everything else raises
TypeError. -/
def pyToIntCmp (v : Val) : Except PyErr Int :=
  match v with
  | .int n => .ok n
  | .bool b => .ok (if b then 1 else 0)
  | _ => .error .typeError

/-- Python `repr` of a string: single quotes, switching to double quotes when
the text itself contains a single quote; backslash and common control
characters escaped (rarer escape sequences are not modelled). -/
def pyReprStr (s : String) : String :=
  let body := s.data.foldr
    (fun c acc =>
      (if c = '\\' then "\\\\".data
       else if c = '\n' then "\\n".data
       else if c = '\r' then "\\r".data
       else if c = '\t' then "\\t".data
       else [c]) ++ acc) []
  if charsHas ['\x27'] s.data && !(charsHas ['"'] s.data) then
    String.mk (['"'] ++ body ++ ['"'])
  else
    String.mk (['\x27'] ++ (replList '\x27' ['\\', '\x27'] body) ++ ['\x27'])

mutual

/-- Python `repr(v)`. -/
def pyRepr : Val → String
  | .none => "None"
  | .bool true => "True"
  | .bool false => "False"
  | .int n => toString n
  | .str s => pyReprStr s
  | .list xs => "[" ++ pyReprList xs ++ "]"
  | .dict fs => "\x7b" ++ pyReprFields fs ++ "\x7d"

def pyReprList : List Val → String
  | [] => ""
  | [x] => pyRepr x
  | x :: xs => pyRepr x ++ ", " ++ pyReprList xs

def pyReprFields : List (String × Val) → String
  | [] => ""
  | [(k, v)] => pyReprStr k ++ ": " ++ pyRepr v
  | (k, v) :: fs => pyReprStr k ++ ": " ++ pyRepr v ++ ", " ++ pyReprFields fs

end

/-- Python `str(v)`. -/
def pyStr (v : Val) : String :=
  match v with
  | .str s => s
  | _ => pyRepr v

/-- JSON escaping of one character (`json.dumps` with `ensure_ascii=False`:
non-ASCII characters stay literal). -/
def jsonEscChar (c : Char) : List Char :=
  if c = '"' then ['\\', '"']
  else if c = '\\' then ['\\', '\\']
  else if c = '\n' then ['\\', 'n']
  else if c = '\r' then ['\\', 'r']
  else if c = '\t' then ['\\', 't']
  else [c]

/-- JSON string literal for `s`. -/
def jsonStr (s : String) : String :=
  String.mk (['"'] ++ s.data.foldr (fun c acc => jsonEscChar c ++ acc) [] ++ ['"'])

mutual

/-- Python `json.dumps(v, ensure_ascii=False)` with the default separators
`", "` and `": "`. -/
def jsonDumps : Val → String
  | .none => "null"
  | .bool true => "true"
  | .bool false => "false"
  | .int n => toString n
  | .str s => jsonStr s
  | .list xs => "[" ++ jsonDumpsL xs ++ "]"
  | .dict fs => "\x7b" ++ jsonDumpsF fs ++ "\x7d"

def jsonDumpsL : List Val → String
  | [] => ""
  | [x] => jsonDumps x
  | x :: xs => jsonDumps x ++ ", " ++ jsonDumpsL xs

def jsonDumpsF : List (String × Val) → String
  | [] => ""
  | [(k, v)] => jsonStr k ++ ": " ++ jsonDumps v
  | (k, v) :: fs => jsonStr k ++ ": " ++ jsonDumps v ++ ", " ++ jsonDumpsF fs

end

/-- Indentation at depth `lvl` for `json.dumps(..., indent=2)`. -/
def jsonPad (lvl : Nat) : String := strRepeat lvl "  "

mutual

/-- Python `json.dumps(v, ensure_ascii=False, indent=2)` at nesting level `lvl`
(with indent, the item separator becomes `","` + newline and the key
separator stays `": "`, exactly as in CPython). -/
def jsonDumpsInd (lvl : Nat) : Val → String
  | .none => "null"
  | .bool true => "true"
  | .bool false => "false"
  | .int n => toString n
  | .str s => jsonStr s
  | .list [] => "[]"
  | .list xs =>
      "[\n" ++ jsonDumpsIndL (lvl + 1) xs ++ "\n" ++ jsonPad lvl ++ "]"
  | .dict [] => "\x7b\x7d"
  | .dict fs =>
      "\x7b\n" ++ jsonDumpsIndF (lvl + 1) fs ++ "\n" ++ jsonPad lvl ++ "\x7d"

def jsonDumpsIndL (lvl : Nat) : List Val → String
  | [] => ""
  | [x] => jsonPad lvl ++ jsonDumpsInd lvl x
  | x :: xs => jsonPad lvl ++ jsonDumpsInd lvl x ++ ",\n" ++ jsonDumpsIndL lvl xs

def jsonDumpsIndF (lvl : Nat) : List (String × Val) → String
  | [] => ""
  | [(k, v)] => jsonPad lvl ++ jsonStr k ++ ": " ++ jsonDumpsInd lvl v
  | (k, v) :: fs =>
      jsonPad lvl ++ jsonStr k ++ ": " ++ jsonDumpsInd lvl v ++ ",\n" ++
        jsonDumpsIndF lvl fs

end

/-- Skip JSON whitespace. -/
def jsonSkipWs : List Char → List Char
  | c :: rest =>
      if c = ' ' || c = '\n' || c = '\t' || c = '\r' then jsonSkipWs rest
      else c :: rest
  | [] => []

/-- Parse a JSON string body after the opening quote; returns the content and
the remainder after the closing quote. -/
def jsonParseStr (fuel : Nat) (acc : List Char) (l : List Char) :
    Option (String × List Char) :=
  match fuel, l with
  | 0, _ => Option.none
  | _, [] => Option.none
  | fuel + 1, c :: rest =>
      if c = '"' then some (String.mk acc.reverse, rest)
      else if c = '\\' then
        match rest with
        | [] => Option.none
        | e :: rest2 =>
            let dec : Option Char :=
              if e = '"' then some '"'
              else if e = '\\' then some '\\'
              else if e = '/' then some '/'
              else if e = 'n' then some '\n'
              else if e = 'r' then some '\r'
              else if e = 't' then some '\t'
              else Option.none
            match dec with
            | some d => jsonParseStr fuel (d :: acc) rest2
            | Option.none => Option.none
      else jsonParseStr fuel (c :: acc) rest

/-- Greedy digit scan. -/
def jsonTakeDigits : List Char → List Char × List Char
  | [] => ([], [])
  | c :: rest =>
      if c.isDigit then
        let (ds, r) := jsonTakeDigits rest
        (c :: ds, r)
      else ([], c :: rest)

mutual

/-- Fueled recursive-descent JSON value parser (integers, strings, arrays,
objects, `true`/`false`/`null`); returns the value and the remaining input. -/
def jsonParseVal (fuel : Nat) (l : List Char) : Option (Val × List Char) :=
  match fuel with
  | 0 => Option.none
  | fuel + 1 =>
      match jsonSkipWs l with
      | [] => Option.none
      | c :: rest =>
          if c = 'n' then
            match rest with
            | 'u' :: 'l' :: 'l' :: r => some (.none, r)
            | _ => Option.none
          else if c = 't' then
            match rest with
            | 'r' :: 'u' :: 'e' :: r => some (.bool true, r)
            | _ => Option.none
          else if c = 'f' then
            match rest with
            | 'a' :: 'l' :: 's' :: 'e' :: r => some (.bool false, r)
            | _ => Option.none
          else if c = '"' then
            match jsonParseStr (rest.length + 1) [] rest with
            | some (s, r) => some (.str s, r)
            | Option.none => Option.none
          else if c = '[' then
            match jsonSkipWs rest with
            | ']' :: r => some (.list [], r)
            | r2 =>
                match jsonParseArr fuel r2 with
                | some (xs, r) => some (.list xs, r)
                | Option.none => Option.none
          else if c = '\x7b' then
            match jsonSkipWs rest with
            | '\x7d' :: r => some (.dict [], r)
            | r2 =>
                match jsonParseObj fuel r2 with
                | some (fs, r) => some (.dict fs, r)
                | Option.none => Option.none
          else if c = '-' then
            match jsonTakeDigits rest with
            | ([], _) => Option.none
            | (ds, r) =>
                match parseDigits ds with
                | some n => some (.int (-(n : Int)), r)
                | Option.none => Option.none
          else if c.isDigit then
            match jsonTakeDigits (c :: rest) with
            | ([], _) => Option.none
            | (ds, r) =>
                match parseDigits ds with
                | some n => some (.int (n : Int), r)
                | Option.none => Option.none
          else Option.none

/-- Parse the elements of a non-empty JSON array (after any `[`). -/
def jsonParseArr (fuel : Nat) (l : List Char) : Option (List Val × List Char) :=
  match fuel with
  | 0 => Option.none
  | fuel + 1 =>
      match jsonParseVal fuel l with
      | Option.none => Option.none
      | some (v, r) =>
          match jsonSkipWs r with
          | ']' :: r2 => some ([v], r2)
          | ',' :: r2 =>
              match jsonParseArr fuel r2 with
              | some (vs, r3) => some (v :: vs, r3)
              | Option.none => Option.none
          | _ => Option.none

/-- Parse the members of a non-empty JSON object (after any `{`). -/
def jsonParseObj (fuel : Nat) (l : List Char) :
    Option (List (String × Val) × List Char) :=
  match fuel with
  | 0 => Option.none
  | fuel + 1 =>
      match jsonSkipWs l with
      | '"' :: r =>
          match jsonParseStr (r.length + 1) [] r with
          | Option.none => Option.none
          | some (k, r2) =>
              match jsonSkipWs r2 with
              | ':' :: r3 =>
                  match jsonParseVal fuel r3 with
                  | Option.none => Option.none
                  | some (v, r4) =>
                      match jsonSkipWs r4 with
                      | '\x7d' :: r5 => some ([(k, v)], r5)
                      | ',' :: r5 =>
                          match jsonParseObj fuel r5 with
                          | some (fs, r6) => some ((k, v) :: fs, r6)
                          | Option.none => Option.none
                      | _ => Option.none
              | _ => Option.none
      | _ => Option.none

end

/-- Parse a complete JSON document; `Option.none` when the text is not valid
JSON (in the modelled fragment) or has trailing garbage. -/
def jsonParse (s : String) : Option Val :=
  match jsonParseVal (s.data.length + 1) s.data with
  | some (v, r) => if (jsonSkipWs r).isEmpty then some v else Option.none
  | Option.none => Option.none

/-- Map a fallible function over a list, stopping at the first error
(a Python `for` loop appending one result per iteration). -/
def mapE (f : α → Except PyErr β) : List α → Except PyErr (List β)
  | [] => .ok []
  | a :: as => do
      let b ← f a
      let bs ← mapE f as
      pure (b :: bs)

/-- Fold a fallible function over a list (a Python accumulating `for` loop). -/
def foldE (f : β → α → Except PyErr β) (acc : β) : List α → Except PyErr β
  | [] => .ok acc
  | a :: as => do
      let acc2 ← f acc a
      foldE f acc2 as

/-- Short-circuiting `any(...)` over fallible truth tests. -/
def anyE (f : α → Except PyErr Bool) : List α → Except PyErr Bool
  | [] => .ok false
  | a :: as => do
      let b ← f a
      if b then pure true else anyE f as

/-- The renderer monad: diagnostics logged so far (through the loguru sink),
over Python-exception failure. -/
abbrev RM (α : Type) := StateT (List String) (Except PyErr) α

/-- Model of `logger.debug(msg)`: append one diagnostic to the log. -/
def logDebug (msg : String) : RM Unit :=
  modify (fun logs => logs ++ [msg])

/-! ## Embedding of `MarkdownRenderer` (markdown_renderer.py)

Each definition carries the source line numbers it translates.  The
`self.document` / `self.metadata` instance fields are only read inside
`render` itself, so the embedding is a family of pure functions. -/

namespace MarkdownRenderer

open BettaFish

/-- Lines 563-569: `_escape_text`.  `str.replace` with the one-character
patterns `"|"`, `"\n"`, `"\r"` is per-character substitution, so the three
chained replaces are modelled by three `replList` passes in the same order. -/
def _escape_text (text : Val) (for_table : Bool) : String :=
  match text with
  | .none => ""
  | _ =>
      let value := pyStr text
      let value :=
        if for_table then
          String.mk (replList '\r' [' ']
            (replList '\n' [' '] (replList '|' ['\\', '|'] value.data)))
        else value
      pyStrip value

/-- Lines 409-410: `_markdown_row` (call sites whose cells are Python strs). -/
def _markdown_row (cells : List String) : String :=
  "| " ++ pyJoin " | " cells ++ " |"

/-- Variant of `_markdown_row` at the one call site (chart headers) whose cell list may
hold non-str Python values: `" | ".join` raises TypeError on those. -/
def _markdown_rowV (cells : List Val) : Except PyErr String := do
  let strs ← mapE (fun c =>
    match c with
    | Val.str s => Except.ok s
    | _ => Except.error PyErr.typeError) cells
  pure (_markdown_row strs)

/-- Lines 412-413: `_markdown_separator`. -/
def _markdown_separator (count : Nat) : String :=
  "| " ++ pyJoin " | " (List.replicate (max 1 count) "---") ++ " |"

/-- Python `str.endswith`. -/
def charsEnd (pat l : List Char) : Bool :=
  charsStart pat.reverse l.reverse

/-- One delimiter pattern of `_normalize_math`: strip `st`/`en` when both
match (`text[len(start):-len(end)]` equals drop-then-dropLast). -/
def mathStripPat (st en : String) (text : String) : Option String :=
  if charsStart st.data text.data && charsEnd en.data text.data then
    let mid := text.data.drop st.data.length
    some (pyStrip (String.mk (mid.take (mid.length - en.data.length))))
  else Option.none

/-- Lines 589-601: `_normalize_math`. -/
def _normalize_math (raw : Val) : String :=
  match raw with
  | .str s =>
      let text := pyStrip s
      match mathStripPat "$$" "$$" text with
      | some r => r
      | Option.none =>
          match mathStripPat "\\[" "\\]" text with
          | some r => r
          | Option.none =>
              match mathStripPat "\\(" "\\)" text with
              | some r => r
              | Option.none => text
  | _ => ""

mutual

/-- Lines 571-587: `_stringify_value`.  bools fall through to `str(value)`
(producing `True`/`False`); floats do not occur in the modelled values. -/
def _stringify_value : Val → String
  | .none => ""
  | .int n => toString n
  | .dict fs =>
      match dlookup "y" fs with
      | some v => pyStr v
      | Option.none =>
          match dlookup "value" fs with
          | some v => pyStr v
          | Option.none => jsonDumps (.dict fs)
  | .list xs => _stringify_valueL xs
  | v => pyStr v

def _stringify_valueL : List Val → String
  | [] => ""
  | [x] => _stringify_value x
  | x :: xs => _stringify_value x ++ ", " ++ _stringify_valueL xs

end

/-- Lines 603-612: `_format_delta`.  `(tone or "").lower()` raises
AttributeError when a truthy non-str tone is supplied. -/
def _format_delta (delta tone : Val) : Except PyErr String :=
  match delta with
  | .none => .ok ""
  | _ => do
      let toneS ←
        match pyOr tone (.str "") with
        | Val.str s => Except.ok s.toLower
        | _ => Except.error PyErr.attributeError
      let pre :=
        if toneS = "up" || toneS = "increase" || toneS = "positive" then "▲ "
        else if toneS = "down" || toneS = "decrease" || toneS = "negative" then "▼ "
        else ""
      pure (pre ++ pyStr delta)

/-- Lines 459-467: `_quote_lines`. -/
def _quote_lines (text : String) : String :=
  if text = "" then ""
  else
    pyJoin "\n" ((pySplitlines text).map (fun line =>
      let l := pyStrip line
      if l = "" then ">" else "> " ++ l))

/-- Lines 429-456: the body of the per-mark loop of `_render_inline_run`;
`text` is the raw (unescaped) run text, used by the `math` mark. -/
def _inline_mark_step (text : Val) (result : String) (mark : Val) : String :=
  match mark with
  | .dict fs =>
      let mtype := dgetD fs "type" .none
      if Val.beq mtype (.str "bold") then "**" ++ result ++ "**"
      else if Val.beq mtype (.str "italic") then "*" ++ result ++ "*"
      else if Val.beq mtype (.str "underline") then "__" ++ result ++ "__"
      else if Val.beq mtype (.str "strike") then "~~" ++ result ++ "~~"
      else if Val.beq mtype (.str "code") then "`" ++ result ++ "`"
      else if Val.beq mtype (.str "link") then
        let href := pyOr (dgetD fs "href" .none) (dgetD fs "value" .none)
        let hrefS := if truthy href then pyStr href else ""
        if hrefS ≠ "" then "[" ++ result ++ "](" ++ hrefS ++ ")" else result
      else if Val.beq mtype (.str "highlight") then "==" ++ result ++ "=="
      else if Val.beq mtype (.str "subscript") then "~" ++ result ++ "~"
      else if Val.beq mtype (.str "superscript") then "^" ++ result ++ "^"
      else if Val.beq mtype (.str "math") then
        let latex := _normalize_math (pyOr (dgetD fs "value" .none) text)
        if latex ≠ "" then "$" ++ latex ++ "$" else result
      else result
  | _ => result

/-- Lines 421-457: `_render_inline_run`. -/
def _render_inline_run (run : Val) (for_table : Bool) : Except PyErr String := do
  let (text, marks) :=
    match run with
    | .dict fs => (dgetD fs "text" (.str ""), pyOr (dgetD fs "marks" .none) (.list []))
    | .str s => (Val.str s, Val.list [])
    | _ => (Val.str "", Val.list [])
  let marksL ← pyIter marks
  pure (marksL.foldl (_inline_mark_step text) (_escape_text text for_table))

/-- Lines 415-419: `_render_inlines`. -/
def _render_inlines (inlines : Val) (for_table : Bool) : Except PyErr String := do
  let runs ← pyIter (pyOr inlines (.list []))
  let parts ← mapE (fun r => _render_inline_run r for_table) runs
  pure (pyJoin "" parts)

/-- Lines 102-109: `_render_heading`.  `max(1, min(6, level))` raises
TypeError unless the level is an int (or bool). -/
def _render_heading (block : Val) : Except PyErr String := do
  let levelV ← pyGetD block "level" (.int 2)
  let n ← pyToIntCmp levelV
  let level := max 1 (min 6 n)
  let text := pyOr (← pyGet block "text") (.str "")
  let subtitle ← pyGet block "subtitle"
  let subtitleText :=
    if truthy subtitle then " _" ++ _escape_text subtitle false ++ "_" else ""
  pure (strRepeat level.toNat "#" ++ " " ++ _escape_text text false ++ subtitleText)

/-- Lines 111-112: `_render_paragraph`. -/
def _render_paragraph (block : Val) : Except PyErr String := do
  _render_inlines (← pyGetD block "inlines" (.list [])) false

/-- Lines 272-275: `_render_code`; f-string interpolation is `str(...)`. -/
def _render_code (block : Val) : Except PyErr String := do
  let lang := pyOr (← pyGet block "lang") (.str "")
  let content := pyOr (← pyGet block "content") (.str "")
  pure ("```" ++ pyStr lang ++ "\n" ++ pyStr content ++ "\n```")

/-- Lines 277-281: `_render_math`. -/
def _render_math (block : Val) : Except PyErr String := do
  let latex := _normalize_math (← pyGetD block "latex" (.str ""))
  if latex = "" then pure "" else pure ("$$\n" ++ latex ++ "\n$$")

/-- Lines 283-285: `_render_figure`. -/
def _render_figure (block : Val) : Except PyErr String := do
  let caption := pyOr (← pyGet block "caption") (.str "图像内容占位")
  pure ("> ![图示占位]() " ++ _escape_text caption false)

/-- Lines 295-310: `_render_kpi_grid`. -/
def _render_kpi_grid (block : Val) : Except PyErr String := do
  let items := pyOr (← pyGet block "items") (.list [])
  if !truthy items then pure ""
  else do
    let itemsL ← pyIter items
    let header := ["指标", "数值", "变化"]
    let rows ← mapE (fun item => do
        let label := pyOr (← pyGet item "label") (.str "")
        let value := pyStr (← pyGetD item "value" (.str "")) ++
          pyStr (pyOr (← pyGet item "unit") (.str ""))
        let delta ← _format_delta (← pyGet item "delta") (← pyGet item "deltaTone")
        pure (_markdown_row [
          _escape_text label true,
          _escape_text (.str value) true,
          _escape_text (.str delta) true])) itemsL
    pure (pyJoin "\n"
      (_markdown_row header :: _markdown_separator header.length :: rows))

/-- Lines 469-489: `_normalize_swot_items`. -/
def _normalize_swot_items (raw : Val) : Except PyErr (List Val) :=
  if !truthy raw then .ok []
  else do
    let entries ← pyIter raw
    pure (entries.foldl (fun items entry =>
      match entry with
      | Val.str s => items ++ [Val.dict [("title", .str s)]]
      | Val.dict fs =>
          let title := pyOr (pyOr (dgetD fs "title" .none) (dgetD fs "label" .none))
            (dgetD fs "text" .none)
          let detail := pyOr (dgetD fs "detail" .none) (dgetD fs "description" .none)
          items ++ [Val.dict [
            ("title", pyOr title (.str "未命名要点")),
            ("detail", detail),
            ("impact", dgetD fs "impact" .none),
            ("priority", dgetD fs "priority" .none),
            ("evidence", dgetD fs "evidence" .none)]]
      | _ => items) [])

/-- Lines 491-508: `_normalize_pest_items`. -/
def _normalize_pest_items (raw : Val) : Except PyErr (List Val) :=
  if !truthy raw then .ok []
  else do
    let entries ← pyIter raw
    pure (entries.foldl (fun items entry =>
      match entry with
      | Val.str s => items ++ [Val.dict [("title", .str s)]]
      | Val.dict fs =>
          let title := pyOr (pyOr (dgetD fs "title" .none) (dgetD fs "label" .none))
            (dgetD fs "text" .none)
          let detail := pyOr (dgetD fs "detail" .none) (dgetD fs "description" .none)
          items ++ [Val.dict [
            ("title", pyOr title (.str "未命名要点")),
            ("detail", detail),
            ("impact", dgetD fs "impact" .none),
            ("priority", dgetD fs "priority" .none),
            ("weight", dgetD fs "weight" .none)]]
      | _ => items) [])

/-- Lines 208-219: one data row of a SWOT quadrant table (`idx` is the
1-based `enumerate(items, start=1)` index). -/
def _swot_item_row (idx : Nat) (item : Val) : Except PyErr String := do
  let impact ← pyGet item "impact"
  let priority ← pyGet item "priority"
  let tags := (if truthy impact then [impact] else []) ++
    (if truthy priority then [priority] else [])
  let tagText := pyJoin " / " (tags.map (fun t => _escape_text t false))
  let detail := pyOr (pyOr (pyOr (← pyGet item "detail") (← pyGet item "description"))
    (← pyGet item "evidence")) (.str "")
  let title := pyOr (← pyGet item "title") (.str "未命名要点")
  pure (_markdown_row [
    toString idx,
    _escape_text title true,
    _escape_text detail true,
    _escape_text (.str tagText) true])

def _swot_rows (idx : Nat) : List Val → Except PyErr (List String)
  | [] => .ok []
  | it :: rest => do
      let r ← _swot_item_row idx it
      let rs ← _swot_rows (idx + 1) rest
      pure (r :: rs)

/-- Lines 184-221: `_render_swot_table`. -/
def _render_swot_table (block : Val) : Except PyErr String := do
  let title := pyOr (← pyGet block "title") (.str "SWOT 分析")
  let summary ← pyGet block "summary"
  let quadrants : List (String × String) :=
    [("strengths", "S 优势"), ("weaknesses", "W 劣势"),
     ("opportunities", "O 机会"), ("threats", "T 威胁")]
  let base := ["### " ++ _escape_text title false] ++
    (if truthy summary then [_escape_text summary false] else [])
  let sections ← mapE (fun (kl : String × String) => do
      let items ← _normalize_swot_items (← pyGet block kl.1)
      if items.isEmpty then pure ["#### " ++ kl.2, "> 暂无数据"]
      else do
        let rows ← _swot_rows 1 items
        pure ["#### " ++ kl.2,
          pyJoin "\n" (_markdown_row ["序号", "要点", "详情", "标签"] ::
            _markdown_separator 4 :: rows)]) quadrants
  pure (pyJoin "\n\n" (base ++ sections.flatten))

/-- Lines 247-258: one data row of a PEST dimension table (tags include
`weight` between `impact` and `priority`). -/
def _pest_item_row (idx : Nat) (item : Val) : Except PyErr String := do
  let impact ← pyGet item "impact"
  let weight ← pyGet item "weight"
  let priority ← pyGet item "priority"
  let tags := (if truthy impact then [impact] else []) ++
    (if truthy weight then [weight] else []) ++
    (if truthy priority then [priority] else [])
  let tagText := pyJoin " / " (tags.map (fun t => _escape_text t false))
  let detail := pyOr (pyOr (← pyGet item "detail") (← pyGet item "description")) (.str "")
  let title := pyOr (← pyGet item "title") (.str "未命名要点")
  pure (_markdown_row [
    toString idx,
    _escape_text title true,
    _escape_text detail true,
    _escape_text (.str tagText) true])

def _pest_rows (idx : Nat) : List Val → Except PyErr (List String)
  | [] => .ok []
  | it :: rest => do
      let r ← _pest_item_row idx it
      let rs ← _pest_rows (idx + 1) rest
      pure (r :: rs)

/-- Lines 223-260: `_render_pest_table`. -/
def _render_pest_table (block : Val) : Except PyErr String := do
  let title := pyOr (← pyGet block "title") (.str "PEST 分析")
  let summary ← pyGet block "summary"
  let dims : List (String × String) :=
    [("political", "P 政治"), ("economic", "E 经济"),
     ("social", "S 社会"), ("technological", "T 技术")]
  let base := ["### " ++ _escape_text title false] ++
    (if truthy summary then [_escape_text summary false] else [])
  let sections ← mapE (fun (kl : String × String) => do
      let items ← _normalize_pest_items (← pyGet block kl.1)
      if items.isEmpty then pure ["#### " ++ kl.2, "> 暂无数据"]
      else do
        let rows ← _pest_rows 1 items
        pure ["#### " ++ kl.2,
          pyJoin "\n" (_markdown_row ["序号", "要点", "详情", "标签"] ::
            _markdown_separator 4 :: rows)]) dims
  pure (pyJoin "\n\n" (base ++ sections.flatten))

/-- Lines 510-519: `_coerce_chart_data`: try one nested container. -/
def coerceTry (fs : List (String × Val)) (key : String) : Option Val :=
  match dlookup key fs with
  | some (.dict nf) =>
      if (dlookup "labels" nf).isSome || (dlookup "datasets" nf).isSome then
        some (.dict nf)
      else Option.none
  | _ => Option.none

/-- Lines 510-519: `_coerce_chart_data`. -/
def _coerce_chart_data (data : Val) : Val :=
  match data with
  | .dict fs =>
      if (dlookup "labels" fs).isSome || (dlookup "datasets" fs).isSome then .dict fs
      else
        match coerceTry fs "data" with
        | some v => v
        | Option.none =>
            match coerceTry fs "chartData" with
            | some v => v
            | Option.none =>
                match coerceTry fs "payload" with
                | some v => v
                | Option.none => .dict fs
  | _ => .dict []

/-- Lines 341-344: the chart header list (`ds.get("label") or f"系列{idx+1}"`,
as Python values: a non-str truthy label flows through and later breaks the
header join). -/
def _chart_headers (idx : Nat) : List Val → Except PyErr (List Val)
  | [] => .ok []
  | ds :: rest => do
      let l ← pyGet ds "label"
      let h := pyOr l (.str ("系列" ++ toString (idx + 1)))
      let hs ← _chart_headers (idx + 1) rest
      pure (h :: hs)

/-- Lines 348-351: one chart table cell (dataset value at label position
`idx`, or the empty string when the series is shorter), table-escaped. -/
def _chart_cell (idx : Nat) (ds : Val) : Except PyErr String := do
  let series := pyOr (← pyGet ds "data") (.list [])
  let n ← pyLen series
  if idx < n then do
    let value ← pyIndex series idx
    pure (_escape_text (.str (_stringify_value value)) true)
  else
    pure (_escape_text (.str (_stringify_value (Val.str ""))) true)

/-- Lines 346-352: the chart table data rows, one per label. -/
def _chart_rows (idx : Nat) (datasets : List Val) : List Val → Except PyErr (List String)
  | [] => .ok []
  | label :: rest => do
      let cells ← mapE (_chart_cell idx) datasets
      let row := _markdown_row (_escape_text (.str (_stringify_value label)) true :: cells)
      let rows ← _chart_rows (idx + 1) datasets rest
      pure (row :: rows)

/-- Lines 334-353: `_render_chart_as_table`. -/
def _render_chart_as_table (block : Val) : Except PyErr String := do
  let data := _coerce_chart_data (pyOr (← pyGet block "data") (.dict []))
  let labels := pyOr (← pyGet data "labels") (.list [])
  let datasets := pyOr (← pyGet data "datasets") (.list [])
  if !truthy labels || !truthy datasets then pure "> 图表数据缺失，无法转为表格"
  else do
    let datasetsL ← pyIter datasets
    let headersTail ← _chart_headers 0 datasetsL
    let headers := Val.str "类别" :: headersTail
    let headRow ← _markdown_rowV headers
    let labelsL ← pyIter labels
    let rows ← _chart_rows 0 datasetsL labelsL
    pure (pyJoin "\n" (headRow :: _markdown_separator headers.length :: rows))

/-- Lines 538-543: the `push` closure: first-seen wins on the concatenated
key `word::category`; the `seen` set is modelled by the list of keys added
so far, the appended item by a dict exactly as in the source. -/
def wcPush (st : List String × List Val) (word : String) (weight : Val)
    (category : String) : List String × List Val :=
  let key := word ++ "::" ++ category
  if st.1.contains key then st
  else (st.1 ++ [key],
    st.2 ++ [Val.dict [("word", .str word), ("weight", weight), ("category", .str category)]])

/-- Lines 546-560: the `push` arguments extracted from one candidate entry
(dict, positional list/tuple, or bare string), or nothing when the entry is
skipped (`continue` / unmatched shape). -/
def wcTriple (entry : Val) : Option (String × Val × String) :=
  match entry with
  | .dict fs =>
      let word := pyOr (pyOr (dgetD fs "word" .none) (dgetD fs "text" .none))
        (dgetD fs "label" .none)
      if !truthy word then Option.none
      else
        let weight := pyOr (dgetD fs "weight" .none) (dgetD fs "value" .none)
        let category := pyOr (dgetD fs "category" .none) (.str "")
        some (pyStr word, weight, pyStr category)
  | .list es =>
      if es.isEmpty then Option.none
      else
        let word := es.getD 0 .none
        let weight := if 1 < es.length then es.getD 1 .none else Val.str ""
        let category := if 2 < es.length then es.getD 2 .none else Val.str ""
        some (pyStr word, weight, pyStr category)
  | .str s => some (s, .str "", "")
  | _ => Option.none

/-- Lines 546-560: processing of one candidate entry. -/
def wcEntry (st : List String × List Val) (entry : Val) : List String × List Val :=
  match wcTriple entry with
  | some (w, wt, c) => wcPush st w wt c
  | Option.none => st

/-- Lines 521-533: the candidate containers, in source order
(`props.data`, `props.words`, `props.items`, `data` as list, `data.items`). -/
def _wc_candidates (block : Val) : Except PyErr (List (List Val)) := do
  let props := pyOr (← pyGet block "props") (.dict [])
  let v1 ← pyGet props "data"
  let v2 ← pyGet props "words"
  let v3 ← pyGet props "items"
  let fromProps :=
    (match v1 with | Val.list xs => [xs] | _ => []) ++
    (match v2 with | Val.list xs => [xs] | _ => []) ++
    (match v3 with | Val.list xs => [xs] | _ => [])
  let dataField ← pyGet block "data"
  let fromData :=
    match dataField with
    | Val.list xs => [xs]
    | Val.dict fs =>
        (match dgetD fs "items" .none with | Val.list xs => [xs] | _ => [])
    | _ => []
  pure (fromProps ++ fromData)

/-- Lines 545-560: the nested collection loop over all candidates. -/
def wcLoop (st : List String × List Val) : List (List Val) → List String × List Val
  | [] => st
  | cand :: rest => wcLoop (cand.foldl wcEntry st) rest

/-- Lines 521-561: `_collect_wordcloud_items`. -/
def _collect_wordcloud_items (block : Val) : Except PyErr (List Val) := do
  let cands ← _wc_candidates block
  pure (wcLoop ([], []) cands).2

/-- Lines 355-372: `_render_wordcloud_as_table`. -/
def _render_wordcloud_as_table (block : Val) : Except PyErr String := do
  let items ← _collect_wordcloud_items block
  if items.isEmpty then pure "> 词云数据缺失，无法转为表格"
  else do
    let rows ← mapE (fun item => do
        let w ← pyGetD item "word" (.str "")
        let wt ← pyGet item "weight"
        let c ← pyGetD item "category" (.str "")
        pure (_markdown_row [
          _escape_text w true,
          _escape_text (.str (_stringify_value wt)) true,
          _escape_text (pyOr c (.str "-")) true])) items
    pure (pyJoin "\n"
      (_markdown_row ["关键词", "权重", "类别"] :: _markdown_separator 3 :: rows))

/-- Lines 312-330: `_render_widget`.  `(block.get("props", {}) or {}).get(...)`
is only evaluated when the direct title is falsy (short-circuit `or`). -/
def _render_widget (block : Val) : Except PyErr String := do
  let widgetType ←
    match pyOr (← pyGet block "widgetType") (.str "") with
    | Val.str s => Except.ok s.toLower
    | _ => Except.error PyErr.attributeError
  let t1 ← pyGet block "title"
  let title ←
    if truthy t1 then pure t1
    else do
      let props := pyOr (← pyGetD block "props" (.dict [])) (.dict [])
      pyGet props "title"
  let titlePre :=
    if truthy title then "**" ++ _escape_text title false ++ "**\n\n" else ""
  if charsStart "chart.js".data widgetType.data then do
    let ct ← _render_chart_as_table block
    pure (pyStrip (titlePre ++ ct))
  else if charsHas "wordcloud".data widgetType.data then do
    let wt ← _render_wordcloud_as_table block
    pure (pyStrip (titlePre ++ wt))
  else do
    let dataV ← pyGet block "data"
    let preview := (jsonDumps (pyOr dataV (.dict []))).take 200
    let note := "> 数据组件暂不支持Markdown渲染"
    pure (titlePre ++ note ++
      (if preview ≠ "" then "\n\n```\n" ++ preview ++ "\n```" else ""))

/-- Lines 614-620: `_fallback_unknown`.  `json.dumps` cannot fail on the
modelled values, so the `except` branch (`str(block)`) is dead here; the
diagnostic carries `str(block)` as in the f-string. -/
def _fallback_unknown (block : Val) : RM String := do
  let payload := jsonDumpsInd 0 block
  logDebug ("未识别的区块类型，使用JSON兜底: " ++ pyStr block)
  pure ("```json\n" ++ payload ++ "\n```")

mutual

/-- Lines 378-382: `_render_blocks_as_text` (the table-cell flattener).
`" ".join(filter(None, texts))` keeps truthy entries and raises TypeError
when a kept entry is not a str (possible via the `code` branch below).
The fuel decreases at every call in this family (so Lean's structural
recursion applies); any fuel at least the total nested size of the input is
"enough", and running out models Python's RecursionError. -/
def _render_blocks_as_text : Nat → Val → Except PyErr String
  | 0, _ => .error .recursionError
  | f + 1, blocks => do
      let bl ← pyIter (pyOr blocks (.list []))
      let texts ← _rbat_loop f bl
      let strs ← mapE (fun v =>
        match v with
        | Val.str s => Except.ok s
        | _ => Except.error PyErr.typeError) (texts.filter truthy)
      pure (pyJoin " " strs)
  termination_by structural fuel _ => fuel

/-- Lines 380-381: the per-block loop of `_render_blocks_as_text`. -/
def _rbat_loop : Nat → List Val → Except PyErr (List Val)
  | _, [] => .ok []
  | 0, _ :: _ => .error .recursionError
  | f + 1, b :: rest => do
      let t ← _render_block_as_text f b
      let ts ← _rbat_loop f rest
      pure (t :: ts)
  termination_by structural fuel _ => fuel

/-- Lines 394-398: the `list` branch of `_render_block_as_text`. -/
def _rbat_items_loop : Nat → List Val → Except PyErr (List String)
  | _, [] => .ok []
  | 0, _ :: _ => .error .recursionError
  | f + 1, sub :: rest => do
      let t ← _render_blocks_as_text f sub
      let ts ← _rbat_items_loop f rest
      pure (t :: ts)
  termination_by structural fuel _ => fuel

/-- Lines 384-407: `_render_block_as_text`.  The `code` branch returns the
raw content value (possibly non-str), so the result type is `Val`. -/
def _render_block_as_text : Nat → Val → Except PyErr Val
  | 0, _ => .error .recursionError
  | f + 1, block =>
      match block with
      | .str s => .ok (.str (_escape_text (.str s) true))
      | .dict fs =>
          let bt := dgetD fs "type" .none
          if Val.beq bt (.str "paragraph") then do
            let t ← _render_inlines (dgetD fs "inlines" (.list [])) true
            pure (.str t)
          else if Val.beq bt (.str "heading") then
            .ok (.str (_escape_text (pyOr (dgetD fs "text" .none) (.str "")) true))
          else if Val.beq bt (.str "list") then do
            let items ← pyIter (pyOr (dgetD fs "items" .none) (.list []))
            let texts ← _rbat_items_loop f items
            pure (.str (pyJoin "; " (texts.filter (fun s => s ≠ ""))))
          else if Val.beq bt (.str "math") then
            .ok (.str ("$" ++ _normalize_math (dgetD fs "latex" (.str "")) ++ "$"))
          else if Val.beq bt (.str "code") then
            .ok (pyOr (dgetD fs "content" (.str "")) (.str ""))
          else if Val.beq bt (.str "widget") then
            .ok (.str (_escape_text (pyOr (dgetD fs "title" .none) (.str "图表")) true))
          else
            match dgetD fs "blocks" .none with
            | .list xs => do
                let t ← _render_blocks_as_text f (.list xs)
                pure (.str t)
            | _ => .ok (.str (_escape_text (.str (pyStr (.dict fs))) true))
      | _ => .ok (.str "")
  termination_by structural fuel _ => fuel

end

/-- Lines 374-376: `_render_cell_content` (non-dict cells contribute None,
hence empty text). -/
def _render_cell_content (fuel : Nat) (cell : Val) : Except PyErr String :=
  match cell with
  | .dict fs => _render_blocks_as_text fuel (dgetD fs "blocks" .none)
  | _ => _render_blocks_as_text fuel Val.none

/-- Line 143: `rows[0].get("cells") if isinstance(rows[0], dict) else None`. -/
def _table_first_row_cells (rows : Val) : Except PyErr Val := do
  let r0 ← pyIndex rows 0
  match r0 with
  | .dict fs => pure (dgetD fs "cells" .none)
  | _ => pure .none

/-- Line 144: header detection — the first row is a header iff some cell's
`header` or `isHeader` is truthy (`any` short-circuits). -/
def _table_has_header (frc : Val) : Except PyErr Bool :=
  if !truthy frc then .ok false
  else do
    let cl ← pyIter frc
    anyE (fun cell => do
      let h ← pyGet cell "header"
      let h2 ← if truthy h then pure h else pyGet cell "isHeader"
      pure (truthy h2)) cl

/-- Lines 146-153: `col_count = max over rows of the row's colspan sum`. -/
def _table_col_count (rows : Val) : Except PyErr Int := do
  let rl ← pyIter rows
  foldE (fun acc row => do
    let cells := match row with | Val.dict fs => dgetD fs "cells" .none | _ => Val.none
    let cl ← pyIter (pyOr cells (.list []))
    let span ← foldE (fun s cell => do
        let cv ← pyGet cell "colspan"
        let n ← pyInt (pyOr cv (.int 1))
        pure (s + n)) (0 : Int) cl
    pure (max acc span)) (0 : Int) rl

/-- Lines 155-159: the header cell texts — rendered first-row cells when a
header was detected, else synthetic `列1…列N` names for
`col_count or (len(first_row_cells or []) or 1)` columns. -/
def _table_header_cells (fuel : Nat) (frc : Val) (hh : Bool) (cc : Int) :
    Except PyErr (List String) :=
  if hh && truthy frc then do
    let cl ← pyIter frc
    mapE (fun cell => _render_cell_content fuel cell) cl
  else do
    let n ←
      if cc ≠ 0 then pure cc
      else do
        let len0 ← pyLen (pyOr frc (.list []))
        pure (if len0 ≠ 0 then (len0 : Int) else 1)
    pure ((List.range n.toNat).map (fun i => "列" ++ toString (i + 1)))

/-- Line 157: the data rows — all rows, minus the first when it became the
header (`rows = rows[1:]`). -/
def _table_data_rows (rows : Val) (hh : Bool) (frc : Val) : Except PyErr (List Val) :=
  if hh && truthy frc then do
    let r ← pySlice1 rows
    pyIter r
  else pyIter rows

/-- Lines 166-171: one row's cells — each cell contributes its flattened
text then `colspan - 1` empty filler cells (`[""] * (span-1)` is empty for
`span ≤ 1`, like the `if span > 1` guard). -/
def _table_row_cells (fuel : Nat) : List Val → Except PyErr (List String)
  | [] => .ok []
  | cell :: rest => do
      let text ← _render_cell_content fuel cell
      let cv ← pyGet cell "colspan"
      let span ← pyInt (pyOr cv (.int 1))
      let restCells ← _table_row_cells fuel rest
      pure (text :: List.replicate (span - 1).toNat "" ++ restCells)

/-- Lines 161-174: the body rows — non-dict rows are skipped, each kept row
is right-padded with empty cells to the header width then truncated to it. -/
def _table_body_rows (fuel : Nat) (hlen : Nat) : List Val → Except PyErr (List (List String))
  | [] => .ok []
  | row :: rest =>
      match row with
      | .dict fs => do
          let cells ← pyIter (pyOr (dgetD fs "cells" .none) (.list []))
          let rc ← _table_row_cells fuel cells
          let padded := rc ++ List.replicate (hlen - rc.length) ""
          let restRows ← _table_body_rows fuel hlen rest
          pure (padded.take hlen :: restRows)
      | _ => _table_body_rows fuel hlen rest

/-- Lines 134-182: `_render_table`. -/
def _render_table (fuel : Nat) (block : Val) : Except PyErr String := do
  let rows := pyOr (← pyGet block "rows") (.list [])
  if !truthy rows then pure ""
  else do
    let frc ← _table_first_row_cells rows
    let hh ← _table_has_header frc
    let cc ← _table_col_count rows
    let headerCells ← _table_header_cells fuel frc hh cc
    let dataRows ← _table_data_rows rows hh frc
    let bodyRows ← _table_body_rows fuel headerCells.length dataRows
    pure (pyJoin "\n" (_markdown_row headerCells ::
      _markdown_separator headerCells.length :: bodyRows.map _markdown_row))

/-- Line 75: the dispatch discriminant — the `type` field, else an implicit
`paragraph` when the block carries truthy `inlines`. -/
def blockDispatchType (fs : List (String × Val)) : Val :=
  pyOr (dgetD fs "type" .none)
    (if truthy (dgetD fs "inlines" .none) then .str "paragraph" else .none)

mutual

/-- Lines 53-65: `_render_blocks`.  As in the cell-flattening family, the
fuel decreases at every call inside this mutual family, so any fuel at
least the total nested size of the input behaves like Python; fuel
exhaustion models RecursionError. -/
def _render_blocks : Nat → Val → Bool → RM String
  | 0, _, _ => throw .recursionError
  | f + 1, blocks, join_with_blank => do
      let bl ← liftM (pyIter (pyOr blocks (.list [])))
      let rendered ← _render_blocks_loop f bl
      if rendered.isEmpty then pure ""
      else pure (pyJoin (if join_with_blank then "\n\n" else "\n") rendered)
  termination_by structural fuel _ _ => fuel

/-- Lines 55-61: the per-block loop of `_render_blocks` (results are never
None in the source, so only the emptiness filter remains). -/
def _render_blocks_loop : Nat → List Val → RM (List String)
  | _, [] => pure []
  | 0, _ :: _ => throw .recursionError
  | f + 1, b :: rest => do
      let md ← _render_block f b
      let md := pyStrip md
      let rest2 ← _render_blocks_loop f rest
      pure (if md = "" then rest2 else md :: rest2)
  termination_by structural fuel _ => fuel

/-- Lines 114-132: `_render_list`. -/
def _render_list : Nat → Val → RM String
  | 0, _ => throw .recursionError
  | f + 1, block => do
      let listType ← liftM (pyGetD block "listType" (.str "bullet"))
      let items := pyOr (← liftM (pyGet block "items")) (.list [])
      let itemsL ← liftM (pyIter items)
      let lines ← _render_list_loop f listType 0 itemsL
      pure (pyJoin "\n" lines)
  termination_by structural fuel _ => fuel

/-- Lines 118-131: the enumerated item loop of `_render_list`. -/
def _render_list_loop : Nat → Val → Nat → List Val → RM (List String)
  | _, _, _, [] => pure []
  | 0, _, _, _ :: _ => throw .recursionError
  | f + 1, listType, idx, itemBlocks :: rest => do
      let pre :=
        if Val.beq listType (.str "ordered") then toString (idx + 1) ++ "."
        else if Val.beq listType (.str "task") then "- [ ]"
        else "-"
      let content ← _render_blocks f itemBlocks false
      if content = "" then _render_list_loop f listType (idx + 1) rest
      else do
        let contentLines := match pySplitlines content with | [] => [""] | ls => ls
        let first := contentLines.headD ""
        let conts := contentLines.tail.map (fun c => "  " ++ c)
        let rest2 ← _render_list_loop f listType (idx + 1) rest
        pure ((pre ++ " " ++ first) :: conts ++ rest2)
  termination_by structural fuel _ _ _ => fuel

/-- Lines 262-264: `_render_blockquote`. -/
def _render_blockquote : Nat → Val → RM String
  | 0, _ => throw .recursionError
  | f + 1, block => do
      let inner ← _render_blocks f (← liftM (pyGetD block "blocks" (.list []))) true
      pure (_quote_lines inner)
  termination_by structural fuel _ => fuel

/-- Lines 266-270: `_render_engine_quote`. -/
def _render_engine_quote : Nat → Val → RM String
  | 0, _ => throw .recursionError
  | f + 1, block => do
      let title := pyOr (pyOr (← liftM (pyGet block "title"))
        (← liftM (pyGet block "engine"))) (.str "引用")
      let inner ← _render_blocks f (← liftM (pyGetD block "blocks" (.list []))) true
      let header := "**" ++ _escape_text title false ++ "**"
      pure (_quote_lines (if inner ≠ "" then header ++ "\n" ++ inner else header))
  termination_by structural fuel _ => fuel

/-- Lines 287-293: `_render_callout`. -/
def _render_callout : Nat → Val → RM String
  | 0, _ => throw .recursionError
  | f + 1, block => do
      let tone := pyOr (← liftM (pyGet block "tone")) (.str "info")
      let title ← liftM (pyGet block "title")
      let inner ← _render_blocks f (← liftM (pyGetD block "blocks" (.list []))) true
      let header :=
        if truthy title then "**" ++ _escape_text title false ++ "** [" ++ pyStr tone ++ "]"
        else "[" ++ pyStr tone ++ "]"
      let content := if inner = "" then header else header ++ "\n" ++ inner
      pure (_quote_lines content)
  termination_by structural fuel _ => fuel

/-- Lines 67-100: `_render_block` — the block dispatcher.  The handler
lookup table becomes a discriminant comparison chain; `hr` and `toc` are the
inline lambdas of the source. -/
def _render_block : Nat → Val → RM String
  | 0, _ => throw .recursionError
  | f + 1, block =>
      match block with
      | .none => pure ""
      | .str s => pure (_escape_text (.str s) false)
      | .dict fs =>
          let bt := blockDispatchType fs
          if Val.beq bt (.str "heading") then liftM (_render_heading (.dict fs))
          else if Val.beq bt (.str "paragraph") then liftM (_render_paragraph (.dict fs))
          else if Val.beq bt (.str "list") then _render_list f (.dict fs)
          else if Val.beq bt (.str "table") then liftM (_render_table f (.dict fs))
          else if Val.beq bt (.str "swotTable") then liftM (_render_swot_table (.dict fs))
          else if Val.beq bt (.str "pestTable") then liftM (_render_pest_table (.dict fs))
          else if Val.beq bt (.str "blockquote") then _render_blockquote f (.dict fs)
          else if Val.beq bt (.str "engineQuote") then _render_engine_quote f (.dict fs)
          else if Val.beq bt (.str "hr") then pure "---"
          else if Val.beq bt (.str "code") then liftM (_render_code (.dict fs))
          else if Val.beq bt (.str "math") then liftM (_render_math (.dict fs))
          else if Val.beq bt (.str "figure") then liftM (_render_figure (.dict fs))
          else if Val.beq bt (.str "callout") then _render_callout f (.dict fs)
          else if Val.beq bt (.str "kpiGrid") then liftM (_render_kpi_grid (.dict fs))
          else if Val.beq bt (.str "widget") then liftM (_render_widget (.dict fs))
          else if Val.beq bt (.str "toc") then pure ""
          else
            match dgetD fs "blocks" .none with
            | .list xs => _render_blocks f (.list xs) true
            | _ => _fallback_unknown (.dict fs)
      | _ => pure ""
  termination_by structural fuel _ => fuel

end

/-- Lines 42-51: `_render_chapter`. -/
def _render_chapter (fuel : Nat) (chapter : Val) : RM String := do
  let title := pyOr (← liftM (pyGet chapter "title")) (← liftM (pyGet chapter "chapterId"))
  let headLines :=
    if truthy title then ["## " ++ _escape_text title false, ""] else []
  let body ← _render_blocks fuel (← liftM (pyGetD chapter "blocks" (.list []))) true
  let lines := headLines ++ (if body ≠ "" then [body] else [])
  pure (pyStrip (pyJoin "\n" lines))

/-- Lines 33-36: the chapter loop of `render`. -/
def _render_chapters_loop (fuel : Nat) : List Val → RM (List String)
  | [] => pure []
  | ch :: rest => do
      let md ← _render_chapter fuel ch
      let rest2 ← _render_chapters_loop fuel rest
      pure (if md ≠ "" then md :: rest2 else rest2)

/-- Lines 22-38: `render` — the top-level entry point.  All parts appended
are strings, so the `part is not None` filter of line 38 is vacuous. -/
def render (fuel : Nat) (document_ir : Val) : RM String := do
  let document := pyOr document_ir (.dict [])
  let metadata := pyOr (← liftM (pyGetD document "metadata" (.dict []))) (.dict [])
  let title := pyOr (pyOr (← liftM (pyGet metadata "title"))
    (← liftM (pyGet metadata "query"))) (.str "报告")
  let headParts :=
    if truthy title then ["# " ++ _escape_text title false, ""] else []
  let chapters := pyOr (← liftM (pyGetD document "chapters" (.list []))) (.list [])
  let chaptersL ← liftM (pyIter chapters)
  let chParts ← _render_chapters_loop fuel chaptersL
  pure (pyStrip (pyJoin "\n" (headParts ++ chParts)))

end MarkdownRenderer

/-! ## Specification-side definitions

These are written from the wording of the specification (not from the
source) and are compared with the embedded code by the claim theorems. -/

open MarkdownRenderer

/-- The block kinds with a dedicated handler (spec §3 / §4.2). -/
def handlerKinds : List String :=
  ["heading", "paragraph", "list", "table", "swotTable", "pestTable",
   "blockquote", "engineQuote", "hr", "code", "math", "figure", "callout",
   "kpiGrid", "widget", "toc"]

/-- Is the value a Python list? -/
def Val.isList : Val → Bool
  | .list _ => true
  | _ => false

/-- The number of dash entries (`---` cells) in an emitted separator row,
read off the emitted text: its dash characters come in groups of three. -/
def separatorDashEntries (s : String) : Nat := (s.data.count '-') / 3

/-- Spec §4.6: the effect of one mark on already-rendered text, written from
the spec's table — `bold→**x**`, `italic→*x*`, `underline→__x__`,
`strike→~~x~~`, `code→` backtick-wrapped, `link→[x](href)` only if an
href/value resolves else unwrapped, `highlight→==x==`, `subscript→~x~`,
`superscript→^x^`, `math→$latex$` using the mark's own value or the run text
if absent (unwrapped if normalization yields empty); marks not in this set
are the identity. -/
def specMarkWrap (text : Val) (mark : Val) (x : String) : String :=
  match mark with
  | .dict fs =>
      match dgetD fs "type" .none with
      | .str t =>
          if t = "bold" then "**" ++ x ++ "**"
          else if t = "italic" then "*" ++ x ++ "*"
          else if t = "underline" then "__" ++ x ++ "__"
          else if t = "strike" then "~~" ++ x ++ "~~"
          else if t = "code" then "`" ++ x ++ "`"
          else if t = "link" then
            let href := pyOr (dgetD fs "href" .none) (dgetD fs "value" .none)
            let hrefS := if truthy href then pyStr href else ""
            if hrefS ≠ "" then "[" ++ x ++ "](" ++ hrefS ++ ")" else x
          else if t = "highlight" then "==" ++ x ++ "=="
          else if t = "subscript" then "~" ++ x ++ "~"
          else if t = "superscript" then "^" ++ x ++ "^"
          else if t = "math" then
            let latex := _normalize_math (pyOr (dgetD fs "value" .none) text)
            if latex ≠ "" then "$" ++ latex ++ "$" else x
          else x
      | _ => x
  | _ => x

/-- Well-shapedness of one chart dataset for claim C7: a mapping whose
`label` is a string or absent-ish (falsy) and whose `data` is a sequence or
absent-ish (falsy). -/
def chartDSOk (ds : Val) : Bool :=
  match ds with
  | .dict dfs =>
      (match dlookup "label" dfs with
       | Option.none => true
       | some (.str _) => true
       | some v => !truthy v) &&
      (match dlookup "data" dfs with
       | Option.none => true
       | some (.list _) => true
       | some v => !truthy v)
  | _ => false

/-- Spec §4.5: chart column header — the dataset's label, or `系列<N>` when
absent (an empty or missing label falls back). -/
def specChartHeader (i : Nat) (ds : Val) : String :=
  match ds with
  | .dict dfs =>
      match dlookup "label" dfs with
      | some (.str l) => if l = "" then "系列" ++ toString (i + 1) else l
      | _ => "系列" ++ toString (i + 1)
  | _ => "系列" ++ toString (i + 1)

def specChartHeaders (i : Nat) : List Val → List String
  | [] => []
  | ds :: rest => specChartHeader i ds :: specChartHeaders (i + 1) rest

/-- Spec §4.5: one chart cell — the dataset's value at the label's position,
stringified and table-escaped, or empty when the series is shorter. -/
def specChartCell (i : Nat) (ds : Val) : String :=
  let series :=
    match ds with
    | .dict dfs =>
        (match dlookup "data" dfs with
         | some (.list xs) => xs
         | _ => [])
    | _ => []
  if i < series.length then
    _escape_text (.str (_stringify_value (series.getD i .none))) true
  else ""

def specChartRows (i : Nat) (Ds : List Val) : List Val → List String
  | [] => []
  | l :: rest =>
      _markdown_row (_escape_text (.str (_stringify_value l)) true ::
        Ds.map (specChartCell i)) :: specChartRows (i + 1) Ds rest

/-- Spec §4.5: the whole degraded chart table — header `类别` then one
column per dataset, one data row per label. -/
def specChartTable (Ls Ds : List Val) : String :=
  pyJoin "\n" (_markdown_row ("类别" :: specChartHeaders 0 Ds) ::
    _markdown_separator (Ds.length + 1) :: specChartRows 0 Ds Ls)

/-- The de-duplication key actually used by the collector: the concatenation
`word ++ "::" ++ category`. -/
def wcKeyT (t : String × Val × String) : String := t.1 ++ "::" ++ t.2.2

/-- First-seen-wins de-duplication of pushed word-cloud triples by their
concatenated key, relative to the keys already seen. -/
def wcFirstWins (seen : List String) : List (String × Val × String) →
    List (String × Val × String)
  | [] => []
  | t :: rest =>
      if seen.contains (wcKeyT t) then wcFirstWins seen rest
      else t :: wcFirstWins (seen ++ [wcKeyT t]) rest

/-- The item dict appended by `push` for one triple. -/
def wcItemOf (t : String × Val × String) : Val :=
  .dict [("word", .str t.1), ("weight", t.2.1), ("category", .str t.2.2)]

/-! ## General lemmas -/

theorem exBind_ok {α β : Type} {a : Except PyErr α} {k : α → Except PyErr β}
    {r : β} : a >>= k = .ok r ↔ ∃ v, a = .ok v ∧ k v = .ok r := by
  cases a with
  | ok v => simp [Bind.bind, Except.bind]
  | error e => simp [Bind.bind, Except.bind]

theorem mapE_ok {α β : Type} {f : α → Except PyErr β} {g : α → β} :
    ∀ {xs : List α}, (∀ x ∈ xs, f x = .ok (g x)) → mapE f xs = .ok (xs.map g) := by
  intro xs
  induction xs with
  | nil => intro _; rfl
  | cons a as ih =>
      intro h
      simp only [mapE]
      rw [h a (by simp), ih (fun x hx => h x (by simp [hx]))]
      rfl

theorem mapE_length {α β : Type} {f : α → Except PyErr β} :
    ∀ {xs : List α} {ys : List β}, mapE f xs = .ok ys → ys.length = xs.length := by
  intro xs
  induction xs with
  | nil =>
      intro ys h
      simp only [mapE] at h
      cases h
      rfl
  | cons a as ih =>
      intro ys h
      simp only [mapE, exBind_ok] at h
      obtain ⟨b, _, h⟩ := h
      obtain ⟨bs, hbs, h⟩ := h
      cases h
      simp [ih hbs]

theorem foldE_inv {α β : Type} {f : β → α → Except PyErr β} (P : β → Prop)
    (step : ∀ acc x acc2, P acc → f acc x = .ok acc2 → P acc2) :
    ∀ {xs : List α} {a b : β}, foldE f a xs = .ok b → P a → P b := by
  intro xs
  induction xs with
  | nil =>
      intro a b h ha
      simp only [foldE] at h
      cases h
      exact ha
  | cons x rest ih =>
      intro a b h ha
      simp only [foldE, exBind_ok] at h
      obtain ⟨a2, ha2, h⟩ := h
      exact ih h (step a x a2 ha ha2)

theorem pyOr_of_not_truthy {a b : Val} (h : truthy (pyOr a b) = false) :
    pyOr a b = b := by
  unfold pyOr at h ⊢
  by_cases hta : truthy a = true
  · rw [if_pos hta] at h
    rw [hta] at h
    cases h
  · rw [if_neg hta]

theorem pyIter_truthy_ne_nil {v : Val} {l : List Val}
    (ht : truthy v = true) (hi : pyIter v = .ok l) : l ≠ [] := by
  cases v with
  | list xs =>
      simp only [pyIter] at hi
      cases hi
      simpa [truthy, List.isEmpty_iff] using ht
  | str s =>
      simp only [pyIter] at hi
      cases hi
      simp only [ne_eq, List.map_eq_nil_iff]
      intro hd
      have : s = "" := by
        cases s with
        | mk d => simp_all
      simp [truthy, this] at ht
  | dict fs =>
      simp only [pyIter] at hi
      cases hi
      simp only [ne_eq, List.map_eq_nil_iff]
      intro hd
      simp [truthy, hd, List.isEmpty_iff] at ht
  | none => simp [pyIter] at hi
  | bool b => simp [pyIter] at hi
  | int n => simp [pyIter] at hi

/-! ## Claim theorems -/

/-- Claim C1 (code_bug evidence): the document
`{"chapters": [{"blocks": [{"type": "heading", "level": "x"}]}]}` makes
`render` raise a Python `TypeError` (from `max(1, min(6, level))` comparing a
str to an int), so an exception does escape the top-level `render` call,
contrary to the claim. -/
theorem render_raises_on_malformed_heading_level :
    (render 10 (Val.dict [("chapters", Val.list [Val.dict [("blocks",
      Val.list [Val.dict [("type", Val.str "heading"),
        ("level", Val.str "x")]])]])])).run [] =
      .error .typeError := rfl

/-- Claim C9: a Document with no metadata and no chapters (also a None
document, and explicit None metadata/chapters) renders to exactly the
default title line `# 报告`, with no exception and no diagnostics; absent
sequences behave as empty. -/
theorem empty_document_renders_default_title_only :
    (render 10 (Val.dict [])).run [] = .ok ("# 报告", []) ∧
    (render 10 Val.none).run [] = .ok ("# 报告", []) ∧
    (render 10 (Val.dict [("metadata", Val.none), ("chapters", Val.none)])).run []
      = .ok ("# 报告", []) := ⟨rfl, rfl, rfl⟩

/-- Claim C10: a block value that is neither a str nor a mapping (None, a
bool, a number, or a list) renders to the empty string — silently omitted,
with no JSON fallback and no diagnostic logged. -/
theorem non_mapping_non_string_block_renders_empty :
    ∀ (f : Nat) (b : Bool) (n : Int) (xs : List Val),
    (_render_block (f + 1) Val.none).run [] = .ok ("", []) ∧
    (_render_block (f + 1) (Val.bool b)).run [] = .ok ("", []) ∧
    (_render_block (f + 1) (Val.int n)).run [] = .ok ("", []) ∧
    (_render_block (f + 1) (Val.list xs)).run [] = .ok ("", []) := by
  intro f b n xs
  exact ⟨rfl, rfl, rfl, rfl⟩

/-- Claim C2: a mapping block whose dispatch kind is not among the
recognized kinds and which carries no list-valued `blocks` field renders as
a fenced ```json code block containing the block's JSON serialization
(indent-2 `json.dumps`), and exactly one diagnostic is logged. -/
theorem unknown_block_renders_json_fallback :
    ∀ (f : Nat) (fs : List (String × Val)),
    (∀ k ∈ handlerKinds, Val.beq (blockDispatchType fs) (.str k) = false) →
    (dgetD fs "blocks" .none).isList = false →
    (_render_block (f + 1) (.dict fs)).run [] =
      .ok ("```json\n" ++ jsonDumpsInd 0 (.dict fs) ++ "\n```",
        ["未识别的区块类型，使用JSON兜底: " ++ pyStr (.dict fs)]) := by
  intro f fs hk hb
  have h01 := hk "heading" (by simp [handlerKinds])
  have h02 := hk "paragraph" (by simp [handlerKinds])
  have h03 := hk "list" (by simp [handlerKinds])
  have h04 := hk "table" (by simp [handlerKinds])
  have h05 := hk "swotTable" (by simp [handlerKinds])
  have h06 := hk "pestTable" (by simp [handlerKinds])
  have h07 := hk "blockquote" (by simp [handlerKinds])
  have h08 := hk "engineQuote" (by simp [handlerKinds])
  have h09 := hk "hr" (by simp [handlerKinds])
  have h10 := hk "code" (by simp [handlerKinds])
  have h11 := hk "math" (by simp [handlerKinds])
  have h12 := hk "figure" (by simp [handlerKinds])
  have h13 := hk "callout" (by simp [handlerKinds])
  have h14 := hk "kpiGrid" (by simp [handlerKinds])
  have h15 := hk "widget" (by simp [handlerKinds])
  have h16 := hk "toc" (by simp [handlerKinds])
  simp only [_render_block, h01, h02, h03, h04, h05, h06, h07, h08, h09, h10,
    h11, h12, h13, h14, h15, h16, Bool.false_eq_true, if_false]
  rcases hB : dgetD fs "blocks" .none with _ | b | n | s | xs | gs
  · rfl
  · rfl
  · rfl
  · rfl
  · rw [hB] at hb; simp [Val.isList] at hb
  · rfl

/-- Claim C2 witness: the block `{type: "nonexistentKind", foo: 1}` renders
as a fenced code block whose body parses back as JSON equal to the block,
with one diagnostic logged. -/
theorem unknown_block_renders_json_fallback_witness :
    (∀ k ∈ handlerKinds,
      Val.beq (blockDispatchType
        [("type", Val.str "nonexistentKind"), ("foo", Val.int 1)]) (.str k) = false) ∧
    (dgetD [("type", Val.str "nonexistentKind"), ("foo", Val.int 1)] "blocks"
      Val.none).isList = false ∧
    (_render_block 1 (Val.dict
        [("type", Val.str "nonexistentKind"), ("foo", Val.int 1)])).run [] =
      .ok ("```json\n\x7b\n  \"type\": \"nonexistentKind\",\n  \"foo\": 1\n\x7d\n```",
        ["未识别的区块类型，使用JSON兜底: \x7b\x27type\x27: \x27nonexistentKind\x27, \x27foo\x27: 1\x7d"]) ∧
    jsonParse "\x7b\n  \"type\": \"nonexistentKind\",\n  \"foo\": 1\n\x7d" =
      some (Val.dict [("type", Val.str "nonexistentKind"), ("foo", Val.int 1)]) := by
  refine ⟨by decide, by decide, ?_, by rfl⟩
  have h := unknown_block_renders_json_fallback 0
    [("type", Val.str "nonexistentKind"), ("foo", Val.int 1)] (by decide) (by decide)
  exact h.trans (by rfl)

theorem col_count_nonneg {rows : Val} {cc : Int}
    (h : _table_col_count rows = .ok cc) : 0 ≤ cc := by
  simp only [_table_col_count, exBind_ok] at h
  obtain ⟨rl, _, h⟩ := h
  exact foldE_inv (fun acc => 0 ≤ acc)
    (by
      intro acc row acc2 ha hstep
      simp only [exBind_ok] at hstep
      obtain ⟨cl, _, hstep⟩ := hstep
      obtain ⟨span, _, hstep⟩ := hstep
      cases hstep
      exact le_trans ha (le_max_left _ _)) h le_rfl

theorem table_body_rows_length :
    ∀ {rows : List Val} {fuel hlen : Nat} {res : List (List String)},
    _table_body_rows fuel hlen rows = .ok res → ∀ r ∈ res, r.length = hlen := by
  intro rows
  induction rows with
  | nil =>
      intro fuel hlen res h r hr
      simp only [_table_body_rows] at h
      cases h
      simp at hr
  | cons row rest ih =>
      intro fuel hlen res h r hr
      cases row with
      | dict fs =>
          simp only [_table_body_rows, exBind_ok] at h
          obtain ⟨cells, _, h⟩ := h
          obtain ⟨rc, _, h⟩ := h
          obtain ⟨restRows, hrest, h⟩ := h
          cases h
          rcases List.mem_cons.mp hr with hr2 | hr2
          · subst hr2
            simp only [List.length_take, List.length_append, List.length_replicate]
            omega
          · exact ih hrest r hr2
      | none => exact ih h r hr
      | bool b => exact ih h r hr
      | int n => exact ih h r hr
      | str s => exact ih h r hr
      | list xs => exact ih h r hr

theorem table_header_cells_pos {fuel : Nat} {frc : Val} {hh : Bool} {cc : Int}
    {hc : List String} (hcc : 0 ≤ cc)
    (h : _table_header_cells fuel frc hh cc = .ok hc) : 0 < hc.length := by
  by_cases hcond : (hh && truthy frc) = true
  · simp only [_table_header_cells, hcond, if_true, exBind_ok] at h
    obtain ⟨cl, hcl, h⟩ := h
    have hlen := mapE_length h
    have hne := pyIter_truthy_ne_nil (Bool.and_elim_right hcond) hcl
    rw [hlen]
    exact List.length_pos.mpr hne
  · simp only [_table_header_cells, hcond, if_false, Bool.false_eq_true] at h
    by_cases h0 : cc ≠ 0
    · rw [if_pos h0] at h
      cases h
      simp only [List.length_map, List.length_range]
      omega
    · rw [if_neg h0] at h
      simp only [exBind_ok] at h
      obtain ⟨len0, _, h⟩ := h
      obtain ⟨m, hm, h⟩ := h
      cases hm
      cases h
      simp only [List.length_map, List.length_range]
      by_cases hl : len0 ≠ 0
      · rw [if_pos hl]
        omega
      · rw [if_neg hl]
        omega

theorem count_dash_pyJoin :
    ∀ m : Nat, ((pyJoin " | " (List.replicate m "---")).data.count '-') = 3 * m := by
  intro m
  induction m with
  | zero => rfl
  | succ k ih =>
      cases k with
      | zero => rfl
      | succ j =>
          have hrep : List.replicate (j + 2) "---" =
              "---" :: List.replicate (j + 1) "---" := rfl
          rw [hrep]
          have hjoin : pyJoin " | " ("---" :: List.replicate (j + 1) "---") =
              "---" ++ " | " ++ pyJoin " | " (List.replicate (j + 1) "---") := by
            have : List.replicate (j + 1) "---" =
                "---" :: List.replicate j "---" := rfl
            rw [this]
            rfl
          rw [hjoin]
          simp only [String.data_append, List.count_append]
          rw [ih]
          have c1 : List.count '-' ['-', '-', '-'] = 3 := rfl
          have c2 : List.count '-' [' ', '|', ' '] = 0 := rfl
          rw [c1, c2]
          omega

theorem separatorDashEntries_markdown_separator (n : Nat) :
    separatorDashEntries (_markdown_separator n) = max 1 n := by
  unfold separatorDashEntries _markdown_separator
  simp only [String.data_append, List.count_append, count_dash_pyJoin]
  have d1 : List.count '-' ['|', ' '] = 0 := rfl
  have d2 : List.count '-' [' ', '|'] = 0 := rfl
  rw [d1, d2]
  omega

/-- Claim C3: whenever a table block renders (to a non-empty table), the
output is a header row, a separator row, and data rows, and every data row
has exactly as many cells as the separator row has dash entries — however
ragged the input rows were. -/
theorem table_rows_match_separator_width :
    ∀ (fuel : Nat) (block : Val) (s : String),
    _render_table fuel block = .ok s →
    s = "" ∨
    ∃ (hc : List String) (br : List (List String)),
      s = pyJoin "\n" (_markdown_row hc :: _markdown_separator hc.length ::
        br.map _markdown_row) ∧
      ∀ r ∈ br, r.length = separatorDashEntries (_markdown_separator hc.length) := by
  intro fuel block s h
  simp only [_render_table, exBind_ok] at h
  obtain ⟨rv, _, h⟩ := h
  by_cases ht : truthy (pyOr rv (.list [])) = true
  · simp only [ht, Bool.not_true, Bool.false_eq_true, if_false, exBind_ok] at h
    obtain ⟨frc, _, h⟩ := h
    obtain ⟨hh, _, h⟩ := h
    obtain ⟨cc, hcc, h⟩ := h
    obtain ⟨hcells, hhc, h⟩ := h
    obtain ⟨drows, _, h⟩ := h
    obtain ⟨brows, hbr, h⟩ := h
    cases h
    right
    refine ⟨hcells, brows, rfl, ?_⟩
    intro r hr
    rw [table_body_rows_length hbr r hr, separatorDashEntries_markdown_separator]
    have hpos := table_header_cells_pos (col_count_nonneg hcc) hhc
    omega
  · simp only [eq_false_of_ne_true ht, Bool.not_false, if_true] at h
    cases h
    exact Or.inl rfl

/-- Claim C3 witness: a concrete ragged table (rows of 1 and 3 cells) — the
short row is padded to the 3-entry separator width. -/
theorem table_rows_match_separator_width_witness :
    (_render_table 20 (Val.dict [("rows", Val.list [
      Val.dict [("cells", Val.list [Val.dict [("blocks", Val.list [Val.str "A"])]])],
      Val.dict [("cells", Val.list [
        Val.dict [("blocks", Val.list [Val.str "B"])],
        Val.dict [("blocks", Val.list [Val.str "C"])],
        Val.dict [("blocks", Val.list [Val.str "D"])]])]])]) =
      .ok "| 列1 | 列2 | 列3 |\n| --- | --- | --- |\n| A |  |  |\n| B | C | D |") ∧
    ("| 列1 | 列2 | 列3 |\n| --- | --- | --- |\n| A |  |  |\n| B | C | D |" = "" ∨
    ∃ (hc : List String) (br : List (List String)),
      "| 列1 | 列2 | 列3 |\n| --- | --- | --- |\n| A |  |  |\n| B | C | D |" =
        pyJoin "\n" (_markdown_row hc :: _markdown_separator hc.length ::
          br.map _markdown_row) ∧
      ∀ r ∈ br, r.length = separatorDashEntries (_markdown_separator hc.length)) :=
  ⟨rfl, table_rows_match_separator_width 20 (Val.dict [("rows", Val.list [
      Val.dict [("cells", Val.list [Val.dict [("blocks", Val.list [Val.str "A"])]])],
      Val.dict [("cells", Val.list [
        Val.dict [("blocks", Val.list [Val.str "B"])],
        Val.dict [("blocks", Val.list [Val.str "C"])],
        Val.dict [("blocks", Val.list [Val.str "D"])]])]])])
    "| 列1 | 列2 | 列3 |\n| --- | --- | --- |\n| A |  |  |\n| B | C | D |" rfl⟩

/-- Claim C4 counterexample: in the table whose flagged header row has one
cell and whose body row has two cells, the max colspan-sum over all rows is
2 (the code itself computes `col_count = 2`), yet the emitted table has one
column (`| H |`, one-dash separator, body truncated to `| A |`) — so the
emitted column count does not equal the max colspan-sum when a header row is
present. -/
theorem table_column_count_counterexample :
    _table_col_count (Val.list [
      Val.dict [("cells", Val.list [Val.dict [("header", Val.bool true),
        ("blocks", Val.list [Val.str "H"])]])],
      Val.dict [("cells", Val.list [
        Val.dict [("blocks", Val.list [Val.str "A"])],
        Val.dict [("blocks", Val.list [Val.str "B"])]])]]) = .ok 2 ∧
    _render_table 20 (Val.dict [("rows", Val.list [
      Val.dict [("cells", Val.list [Val.dict [("header", Val.bool true),
        ("blocks", Val.list [Val.str "H"])]])],
      Val.dict [("cells", Val.list [
        Val.dict [("blocks", Val.list [Val.str "A"])],
        Val.dict [("blocks", Val.list [Val.str "B"])]])]])]) =
      .ok "| H |\n| --- |\n| A |" ∧
    separatorDashEntries "| --- |" = 1 ∧ (2 : Int).toNat ≠ 1 :=
  ⟨rfl, rfl, rfl, by decide⟩

/-- Claim C4 (amended): the emitted column count equals the max colspan-sum
over all rows only when no header row is detected (and the sum is non-zero);
when a header row is detected the column count is the number of header-row
cells instead.  A data cell with colspan `k` still contributes its flattened
text followed by `k-1` empty filler cells, and the row
`[{A, colspan 2}, {B}]` in a 3-column table renders as `| A |  | B |`. -/
theorem table_column_count_amended :
    (∀ (fuel : Nat) (block rv frc : Val) (cc : Int) (s : String),
      pyGet block "rows" = .ok rv →
      _table_first_row_cells (pyOr rv (.list [])) = .ok frc →
      _table_has_header frc = .ok false →
      _table_col_count (pyOr rv (.list [])) = .ok cc →
      cc ≠ 0 →
      _render_table fuel block = .ok s →
      ∃ (hc : List String) (br : List (List String)),
        s = pyJoin "\n" (_markdown_row hc :: _markdown_separator hc.length ::
          br.map _markdown_row) ∧ hc.length = cc.toNat) ∧
    (∀ (fuel : Nat) (block rv frc : Val) (cl : List Val) (s : String),
      pyGet block "rows" = .ok rv →
      _table_first_row_cells (pyOr rv (.list [])) = .ok frc →
      _table_has_header frc = .ok true →
      truthy frc = true →
      pyIter frc = .ok cl →
      _render_table fuel block = .ok s →
      ∃ (hc : List String) (br : List (List String)),
        s = pyJoin "\n" (_markdown_row hc :: _markdown_separator hc.length ::
          br.map _markdown_row) ∧ hc.length = cl.length) ∧
    (∀ (fuel : Nat) (cell : Val) (rest : List Val) (t : String) (cv : Val)
      (k : Int) (rcs : List String),
      _render_cell_content fuel cell = .ok t →
      pyGet cell "colspan" = .ok cv →
      pyInt (pyOr cv (.int 1)) = .ok k →
      _table_row_cells fuel rest = .ok rcs →
      _table_row_cells fuel (cell :: rest) =
        .ok (t :: List.replicate (k - 1).toNat "" ++ rcs)) ∧
    _render_table 20 (Val.dict [("rows", Val.list [
      Val.dict [("cells", Val.list [
        Val.dict [("blocks", Val.list [Val.str "A"]), ("colspan", Val.int 2)],
        Val.dict [("blocks", Val.list [Val.str "B"])]])]])]) =
      .ok "| 列1 | 列2 | 列3 |\n| --- | --- | --- |\n| A |  | B |" := by
  refine ⟨?_, ?_, ?_, rfl⟩
  · intro fuel block rv frc cc s hget hfrc hhh hcc hcc0 h
    simp only [_render_table, exBind_ok] at h
    obtain ⟨rv0, hrv0, h⟩ := h
    rw [hget] at hrv0
    cases hrv0
    by_cases ht : truthy (pyOr rv (.list [])) = true
    · simp only [ht, Bool.not_true, Bool.false_eq_true, if_false, exBind_ok] at h
      obtain ⟨frc0, hfrc0, h⟩ := h
      rw [hfrc] at hfrc0
      cases hfrc0
      obtain ⟨hh0, hhh0, h⟩ := h
      rw [hhh] at hhh0
      cases hhh0
      obtain ⟨cc0, hcc0e, h⟩ := h
      rw [hcc] at hcc0e
      cases hcc0e
      obtain ⟨hcells, hhc, h⟩ := h
      obtain ⟨drows, _, h⟩ := h
      obtain ⟨brows, _, h⟩ := h
      cases h
      refine ⟨hcells, brows, rfl, ?_⟩
      simp only [_table_header_cells, Bool.false_and, Bool.false_eq_true,
        if_false, if_pos hcc0] at hhc
      cases hhc
      simp [List.length_map, List.length_range]
    · exfalso
      -- untruthy `rows` means `pyOr` returned the empty list, on which the
      -- `rows[0]` access of `_table_first_row_cells` raises IndexError,
      -- contradicting the hypothesis that it succeeded.
      have hnil : pyOr rv (.list []) = .list [] :=
        pyOr_of_not_truthy (eq_false_of_ne_true ht)
      rw [hnil] at hfrc
      simp [_table_first_row_cells, pyIndex, exBind_ok] at hfrc
  · intro fuel block rv frc cl s hget hfrc hhh htr hcl h
    simp only [_render_table, exBind_ok] at h
    obtain ⟨rv0, hrv0, h⟩ := h
    rw [hget] at hrv0
    cases hrv0
    by_cases ht : truthy (pyOr rv (.list [])) = true
    · simp only [ht, Bool.not_true, Bool.false_eq_true, if_false, exBind_ok] at h
      obtain ⟨frc0, hfrc0, h⟩ := h
      rw [hfrc] at hfrc0
      cases hfrc0
      obtain ⟨hh0, hhh0, h⟩ := h
      rw [hhh] at hhh0
      cases hhh0
      obtain ⟨cc0, _, h⟩ := h
      obtain ⟨hcells, hhc, h⟩ := h
      obtain ⟨drows, _, h⟩ := h
      obtain ⟨brows, _, h⟩ := h
      cases h
      refine ⟨hcells, brows, rfl, ?_⟩
      simp only [_table_header_cells, htr, Bool.and_self, if_true, exBind_ok] at hhc
      obtain ⟨cl0, hcl0, hhc⟩ := hhc
      rw [hcl] at hcl0
      cases hcl0
      exact mapE_length hhc
    · exfalso
      have hnil : pyOr rv (.list []) = .list [] :=
        pyOr_of_not_truthy (eq_false_of_ne_true ht)
      rw [hnil] at hfrc
      simp [_table_first_row_cells, pyIndex, exBind_ok] at hfrc
  · intro fuel cell rest t cv k rcs hc hcv hk hr
    simp only [_table_row_cells, exBind_ok]
    exact ⟨t, hc, cv, hcv, k, hk, rcs, hr, rfl⟩

/-- Claim C4 witness: the no-header colspan-sum law instantiated at the
concrete 3-column table (colspan-sum max is 3; the synthetic header then has
3 cells) together with the concrete rendering. -/
theorem table_column_count_amended_witness :
    (pyGet (Val.dict [("rows", Val.list [
        Val.dict [("cells", Val.list [
          Val.dict [("blocks", Val.list [Val.str "A"]), ("colspan", Val.int 2)],
          Val.dict [("blocks", Val.list [Val.str "B"])]])]])]) "rows" =
      .ok (Val.list [Val.dict [("cells", Val.list [
        Val.dict [("blocks", Val.list [Val.str "A"]), ("colspan", Val.int 2)],
        Val.dict [("blocks", Val.list [Val.str "B"])]])]])) ∧
    (∃ (hc : List String) (br : List (List String)),
      "| 列1 | 列2 | 列3 |\n| --- | --- | --- |\n| A |  | B |" =
        pyJoin "\n" (_markdown_row hc :: _markdown_separator hc.length ::
          br.map _markdown_row) ∧ hc.length = (3 : Int).toNat) := by
  refine ⟨rfl, ?_⟩
  exact table_column_count_amended.1 20
    (Val.dict [("rows", Val.list [
      Val.dict [("cells", Val.list [
        Val.dict [("blocks", Val.list [Val.str "A"]), ("colspan", Val.int 2)],
        Val.dict [("blocks", Val.list [Val.str "B"])]])]])])
    (Val.list [Val.dict [("cells", Val.list [
      Val.dict [("blocks", Val.list [Val.str "A"]), ("colspan", Val.int 2)],
      Val.dict [("blocks", Val.list [Val.str "B"])]])]])
    (Val.list [
      Val.dict [("blocks", Val.list [Val.str "A"]), ("colspan", Val.int 2)],
      Val.dict [("blocks", Val.list [Val.str "B"])]])
    3
    "| 列1 | 列2 | 列3 |\n| --- | --- | --- |\n| A |  | B |"
    rfl rfl rfl rfl (by decide) rfl

theorem inline_step_eq_spec (text : Val) (x : String) (m : Val) :
    _inline_mark_step text x m = specMarkWrap text m x := by
  cases m with
  | dict fs =>
      simp only [_inline_mark_step, specMarkWrap]
      rcases hmt : dgetD fs "type" Val.none with _ | b | n | s | xs | gs
      · rfl
      · rfl
      · rfl
      · by_cases h1 : s = "bold"
        · subst h1; rfl
        · by_cases h2 : s = "italic"
          · subst h2; rfl
          · by_cases h3 : s = "underline"
            · subst h3; rfl
            · by_cases h4 : s = "strike"
              · subst h4; rfl
              · by_cases h5 : s = "code"
                · subst h5; rfl
                · by_cases h6 : s = "link"
                  · subst h6; rfl
                  · by_cases h7 : s = "highlight"
                    · subst h7; rfl
                    · by_cases h8 : s = "subscript"
                      · subst h8; rfl
                      · by_cases h9 : s = "superscript"
                        · subst h9; rfl
                        · by_cases h10 : s = "math"
                          · subst h10; rfl
                          · simp only [Val.beq,
                              beq_eq_false_iff_ne.mpr h1,
                              beq_eq_false_iff_ne.mpr h2,
                              beq_eq_false_iff_ne.mpr h3,
                              beq_eq_false_iff_ne.mpr h4,
                              beq_eq_false_iff_ne.mpr h5,
                              beq_eq_false_iff_ne.mpr h6,
                              beq_eq_false_iff_ne.mpr h7,
                              beq_eq_false_iff_ne.mpr h8,
                              beq_eq_false_iff_ne.mpr h9,
                              beq_eq_false_iff_ne.mpr h10,
                              Bool.false_eq_true, if_false,
                              if_neg h1, if_neg h2, if_neg h3, if_neg h4,
                              if_neg h5, if_neg h6, if_neg h7, if_neg h8,
                              if_neg h9, if_neg h10]
      · rfl
      · rfl
  | none => rfl
  | bool b => rfl
  | int n => rfl
  | str s => rfl
  | list xs => rfl

theorem foldl_inline_step_eq_spec (text : Val) :
    ∀ (ms : List Val) (acc : String),
    ms.foldl (_inline_mark_step text) acc =
      ms.foldl (fun a m => specMarkWrap text m a) acc := by
  intro ms
  induction ms with
  | nil => intro acc; rfl
  | cons m rest ih =>
      intro acc
      simp only [List.foldl_cons, inline_step_eq_spec, ih]

/-- Claim C5: for every inline run, the marks wrap the escaped text in array
order, each wrapping the previous result per its Markdown syntax, and
unrecognized marks leave the result unchanged (the spec-side `specMarkWrap`
is the identity on those); in particular `text:"x"` with marks
`[bold, italic]` renders as `***x***`, i.e. `*` wrapping `**x**`. -/
theorem inline_marks_apply_in_array_order :
    (∀ (ft : Bool) (t : String) (ms : List Val),
      _render_inline_run (.dict [("text", .str t), ("marks", .list ms)]) ft =
        .ok (ms.foldl (fun acc m => specMarkWrap (.str t) m acc)
          (_escape_text (.str t) ft))) ∧
    _render_inline_run (.dict [("text", .str "x"),
      ("marks", .list [.dict [("type", .str "bold")],
        .dict [("type", .str "italic")]])]) false = .ok "***x***" ∧
    "***x***" = "*" ++ "**x**" ++ "*" := by
  refine ⟨?_, rfl, rfl⟩
  intro ft t ms
  have hmarks : pyOr (Val.list ms) (Val.list []) = Val.list ms := by
    cases ms with
    | nil => rfl
    | cons a as => rfl
  have step1 : _render_inline_run
      (.dict [("text", .str t), ("marks", .list ms)]) ft =
      (do
        let marksL ← pyIter (pyOr (Val.list ms) (Val.list []))
        pure (marksL.foldl (_inline_mark_step (Val.str t))
          (_escape_text (Val.str t) ft))) := rfl
  rw [step1, hmarks]
  simp only [pyIter]
  rw [show (do
      let marksL ← (Except.ok ms : Except PyErr (List Val))
      pure (marksL.foldl (_inline_mark_step (Val.str t))
        (_escape_text (Val.str t) ft))) =
    Except.ok (ms.foldl (_inline_mark_step (Val.str t))
      (_escape_text (Val.str t) ft)) from rfl]
  rw [foldl_inline_step_eq_spec]

theorem replList_of_not_mem {c : Char} {rep : List Char} :
    ∀ {l : List Char}, c ∉ l → replList c rep l = l := by
  intro l
  induction l with
  | nil => intro _; rfl
  | cons a as ih =>
      intro h
      have ha : a ≠ c := fun hh => h (by simp [hh])
      simp only [replList, if_neg (fun hh => ha hh), ih (fun hh => h (by simp [hh]))]
      rfl

theorem mem_replList {c d : Char} {rep : List Char} :
    ∀ {l : List Char}, d ∈ replList c rep l → d ∈ l ∨ d ∈ rep := by
  intro l
  induction l with
  | nil => intro h; simp [replList] at h
  | cons a as ih =>
      intro h
      simp only [replList, List.mem_append] at h
      rcases h with h | h
      · by_cases hac : a = c
        · rw [if_pos hac] at h
          exact Or.inr h
        · rw [if_neg hac] at h
          simp at h
          exact Or.inl (by simp [h])
      · rcases ih h with h2 | h2
        · exact Or.inl (by simp [h2])
        · exact Or.inr h2

theorem not_mem_replList_self {c : Char} {rep : List Char} (h : c ∉ rep) :
    ∀ l, c ∉ replList c rep l := by
  intro l
  induction l with
  | nil => simp [replList]
  | cons a as ih =>
      simp only [replList, List.mem_append]
      rintro (hm | hm)
      · by_cases hac : a = c
        · rw [if_pos hac] at hm
          exact h hm
        · rw [if_neg hac] at hm
          simp at hm
          exact hac (hm.symm)
      · exact ih hm

theorem stripChars_eq (l : List Char) :
    stripChars l = List.rdropWhile isPySpace (l.dropWhile isPySpace) := by
  simp [stripChars, List.rdropWhile]

theorem mem_stripChars {d : Char} {l : List Char} (h : d ∈ stripChars l) :
    d ∈ l := by
  rw [stripChars_eq] at h
  exact (List.dropWhile_suffix isPySpace).sublist.subset
    ((List.rdropWhile_prefix isPySpace _).sublist.subset h)

theorem stripChars_idem (l : List Char) :
    stripChars (stripChars l) = stripChars l := by
  rw [stripChars_eq, stripChars_eq]
  have hm2 : (l.dropWhile isPySpace).dropWhile isPySpace = l.dropWhile isPySpace :=
    List.dropWhile_idempotent isPySpace l
  have hpre := List.rdropWhile_prefix isPySpace (l.dropWhile isPySpace)
  have hdr : (List.rdropWhile isPySpace (l.dropWhile isPySpace)).dropWhile isPySpace
      = List.rdropWhile isPySpace (l.dropWhile isPySpace) := by
    rcases hre : List.rdropWhile isPySpace (l.dropWhile isPySpace) with _ | ⟨a, rs⟩
    · rfl
    · rw [hre] at hpre
      rcases hpre with ⟨t, ht⟩
      have hpa : isPySpace a = false := by
        by_cases hp : isPySpace a = true
        · exfalso
          rw [← ht, List.cons_append, List.dropWhile_cons, if_pos hp] at hm2
          have hlen := congrArg List.length hm2
          have hle := (@List.dropWhile_suffix _ (rs ++ t) isPySpace).sublist.length_le
          simp only [List.length_cons] at hlen
          omega
        · exact eq_false_of_ne_true hp
      rw [List.dropWhile_cons, hpa]
      simp
  rw [hdr, List.rdropWhile_idempotent isPySpace]

/-- Claim C6 counterexample: table-safe escaping is not idempotent — on the
one-character string `|`, one round yields backslash-pipe, and a second
round re-escapes the pipe, adding another backslash
(`escape(escape("|")) = "\\\\|" ≠ "\\|" = escape("|")`). -/
theorem escape_table_not_idempotent_on_pipe :
    _escape_text (.str (_escape_text (.str "|") true)) true ≠
      _escape_text (.str "|") true ∧
    _escape_text (.str "|") true = "\\|" ∧
    _escape_text (.str (_escape_text (.str "|") true)) true = "\\\\|" := by
  refine ⟨by decide, rfl, rfl⟩

/-- Claim C6 (amended): table-safe escaping is idempotent exactly on
pipe-free input — for every string without `|`, escaping the escaped result
again changes nothing; when the input contains a pipe, the second round
escapes the backslash-introduced pipe again and adds a backslash (see the
counterexample). -/
theorem escape_table_idempotent_on_pipe_free :
    ∀ s : String, '|' ∉ s.data →
    _escape_text (.str (_escape_text (.str s) true)) true =
      _escape_text (.str s) true := by
  intro s hs
  have h1 : _escape_text (.str s) true =
      String.mk (stripChars (replList '\r' [' '] (replList '\n' [' ']
        (replList '|' ['\\', '|'] s.data)))) := rfl
  rw [replList_of_not_mem hs] at h1
  have hpipe_u2 : '|' ∉ replList '\n' [' '] s.data := by
    intro hm
    rcases mem_replList hm with h | h
    · exact hs h
    · simp at h
  have hpipe_u : '|' ∉ replList '\r' [' '] (replList '\n' [' '] s.data) := by
    intro hm
    rcases mem_replList hm with h | h
    · exact hpipe_u2 h
    · simp at h
  have hnl_u : '\n' ∉ replList '\r' [' '] (replList '\n' [' '] s.data) := by
    intro hm
    rcases mem_replList hm with h | h
    · exact not_mem_replList_self (by simp) s.data h
    · simp at h
  have hcr_u : '\r' ∉ replList '\r' [' '] (replList '\n' [' '] s.data) :=
    not_mem_replList_self (by simp) _
  have hp : '|' ∉ stripChars (replList '\r' [' '] (replList '\n' [' '] s.data)) :=
    fun hm => hpipe_u (mem_stripChars hm)
  have hn : '\n' ∉ stripChars (replList '\r' [' '] (replList '\n' [' '] s.data)) :=
    fun hm => hnl_u (mem_stripChars hm)
  have hr : '\r' ∉ stripChars (replList '\r' [' '] (replList '\n' [' '] s.data)) :=
    fun hm => hcr_u (mem_stripChars hm)
  have h2 : _escape_text (.str (String.mk
      (stripChars (replList '\r' [' '] (replList '\n' [' '] s.data))))) true =
      String.mk (stripChars (replList '\r' [' '] (replList '\n' [' ']
        (replList '|' ['\\', '|']
          (stripChars (replList '\r' [' '] (replList '\n' [' '] s.data))))))) := rfl
  rw [h1, h2, replList_of_not_mem hp, replList_of_not_mem hn,
    replList_of_not_mem hr, stripChars_idem]

/-- Claim C6 witness: the amended idempotence at the pipe-free string
`" a b "` (whitespace shows the strip is idempotent too). -/
theorem escape_table_idempotent_on_pipe_free_witness :
    ('|' ∉ (" a b " : String).data) ∧
    _escape_text (.str (_escape_text (.str " a b ") true)) true =
      _escape_text (.str " a b ") true ∧
    _escape_text (.str " a b ") true = "a b" :=
  ⟨by decide, escape_table_idempotent_on_pipe_free " a b " (by decide), rfl⟩

theorem wcLoop_flatten : ∀ (cands : List (List Val)) (st : List String × List Val),
    wcLoop st cands = cands.flatten.foldl wcEntry st := by
  intro cands
  induction cands with
  | nil => intro st; rfl
  | cons c rest ih =>
      intro st
      simp only [wcLoop, List.flatten_cons, List.foldl_append, ih]

theorem foldl_wcEntry_filterMap : ∀ (entries : List Val) (st : List String × List Val),
    entries.foldl wcEntry st =
      (entries.filterMap wcTriple).foldl
        (fun st t => wcPush st t.1 t.2.1 t.2.2) st := by
  intro entries
  induction entries with
  | nil => intro st; rfl
  | cons e rest ih =>
      intro st
      simp only [List.foldl_cons, List.filterMap_cons]
      rcases ht : wcTriple e with _ | t
      · simp only [wcEntry, ht]
        exact ih st
      · simp only [wcEntry, ht]
        rw [ih]
        rfl

theorem wcPush_loop_spec :
    ∀ (ts : List (String × Val × String)) (seen : List String) (items : List Val),
    ts.foldl (fun st t => wcPush st t.1 t.2.1 t.2.2) (seen, items) =
      (seen ++ (wcFirstWins seen ts).map wcKeyT,
       items ++ (wcFirstWins seen ts).map wcItemOf) := by
  intro ts
  induction ts with
  | nil => intro seen items; simp [wcFirstWins]
  | cons t rest ih =>
      intro seen items
      have hpush : wcPush (seen, items) t.1 t.2.1 t.2.2 =
          (if seen.contains (wcKeyT t) = true then (seen, items)
           else (seen ++ [wcKeyT t], items ++ [wcItemOf t])) := rfl
      simp only [List.foldl_cons]
      rw [hpush]
      by_cases hk : seen.contains (wcKeyT t) = true
      · rw [if_pos hk]
        simp only [wcFirstWins]
        rw [if_pos hk]
        exact ih seen items
      · rw [if_neg hk]
        simp only [wcFirstWins]
        rw [if_neg hk]
        rw [ih]
        simp [List.append_assoc, List.map_cons]

theorem wcFirstWins_keys_nodup :
    ∀ (ts : List (String × Val × String)) (seen : List String),
    ((wcFirstWins seen ts).map wcKeyT).Nodup ∧
    ∀ k ∈ (wcFirstWins seen ts).map wcKeyT, k ∉ seen := by
  intro ts
  induction ts with
  | nil => intro seen; simp [wcFirstWins]
  | cons t rest ih =>
      intro seen
      simp only [wcFirstWins]
      by_cases hk : seen.contains (wcKeyT t) = true
      · rw [if_pos hk]
        exact ih seen
      · rw [if_neg hk]
        obtain ⟨ihn, ihs⟩ := ih (seen ++ [wcKeyT t])
        simp only [List.map_cons, List.nodup_cons]
        refine ⟨⟨?_, ihn⟩, ?_⟩
        · intro hmem
          exact ihs _ hmem (by simp)
        · intro k hkmem hkseen
          rcases List.mem_cons.mp hkmem with rfl | hkmem2
          · exact hk (by simpa using hkseen)
          · exact ihs k hkmem2 (by simp [hkseen])

/-- Claim C8 counterexample: the two entries `(word "a::b", category "c")`
and `(word "a", category "b::c")` have different (word, category) pairs, yet
only the first is collected — the de-duplication key is the concatenation
`word ++ "::" ++ category`, which collides for them. -/
theorem wordcloud_distinct_pairs_collapsed :
    _collect_wordcloud_items (Val.dict [("props", Val.dict [("data", Val.list [
      Val.dict [("word", Val.str "a::b"), ("category", Val.str "c"),
        ("weight", Val.int 1)],
      Val.dict [("word", Val.str "a"), ("category", Val.str "b::c"),
        ("weight", Val.int 2)]])])]) =
      .ok [Val.dict [("word", Val.str "a::b"), ("weight", Val.int 1),
        ("category", Val.str "c")]] ∧
    ("a::b", "c") ≠ ("a", "b::c") := ⟨rfl, by decide⟩

/-- Claim C8 (amended): the collected word-cloud items are the pushed
entries de-duplicated with first-seen precedence by the concatenated key
`word ++ "::" ++ category` (not by the (word, category) pair: distinct
pairs whose concatenations coincide also collapse, see the counterexample);
the surviving items' keys are pairwise distinct. -/
theorem wordcloud_dedup_first_wins_by_key :
    (∀ block : Val,
      _collect_wordcloud_items block =
        (_wc_candidates block).map (fun cands =>
          (wcFirstWins [] (cands.flatten.filterMap wcTriple)).map wcItemOf)) ∧
    (∀ ts : List (String × Val × String),
      ((wcFirstWins [] ts).map wcKeyT).Nodup) := by
  constructor
  · intro block
    simp only [_collect_wordcloud_items]
    rcases hc : _wc_candidates block with e | cands
    · rfl
    · simp only [Except.map]
      rw [show ((do
          let cands2 ← (Except.ok cands : Except PyErr (List (List Val)))
          pure (wcLoop ([], []) cands2).2) : Except PyErr (List Val)) =
        Except.ok (wcLoop ([], []) cands).2 from rfl]
      rw [wcLoop_flatten, foldl_wcEntry_filterMap, wcPush_loop_spec]
      simp
  · intro ts
    exact (wcFirstWins_keys_nodup ts []).1

theorem ok_bind {α β : Type} (a : α) (k : α → Except PyErr β) :
    (Except.ok a >>= k) = k a := rfl

theorem pyOr_list_self (xs : List Val) :
    pyOr (Val.list xs) (Val.list []) = Val.list xs := by
  cases xs with
  | nil => rfl
  | cons a as => rfl

theorem specChartHeaders_length :
    ∀ (Ds : List Val) (i : Nat), (specChartHeaders i Ds).length = Ds.length := by
  intro Ds
  induction Ds with
  | nil => intro i; rfl
  | cons ds rest ih =>
      intro i
      simp only [specChartHeaders, List.length_cons, ih]

theorem mapE_expectStr : ∀ xs : List String,
    mapE (fun c => match c with
      | Val.str s => Except.ok s
      | _ => Except.error PyErr.typeError) (xs.map Val.str) = .ok xs := by
  intro xs
  induction xs with
  | nil => rfl
  | cons s rest ih =>
      simp only [List.map_cons, mapE]
      rw [ih]
      rfl

theorem markdown_rowV_strs (xs : List String) :
    _markdown_rowV (xs.map Val.str) = .ok (_markdown_row xs) := by
  simp only [_markdown_rowV]
  rw [mapE_expectStr]
  rfl

theorem chart_headers_spec :
    ∀ (Ds : List Val) (i : Nat), (∀ ds ∈ Ds, chartDSOk ds = true) →
    _chart_headers i Ds = .ok ((specChartHeaders i Ds).map Val.str) := by
  intro Ds
  induction Ds with
  | nil => intro i _; rfl
  | cons ds rest ih =>
      intro i hok
      have hds := hok ds (by simp)
      cases ds with
      | dict dfs =>
          simp only [chartDSOk, Bool.and_eq_true] at hds
          obtain ⟨hlab, _⟩ := hds
          simp only [_chart_headers, pyGet, ok_bind]
          rw [ih (i + 1) (fun d hd => hok d (by simp [hd]))]
          have hhead : pyOr (dgetD dfs "label" Val.none)
              (Val.str ("系列" ++ toString (i + 1))) =
              Val.str (specChartHeader i (Val.dict dfs)) := by
            simp only [specChartHeader, dgetD]
            rcases hl : dlookup "label" dfs with _ | v
            · rfl
            · rw [hl] at hlab
              rcases v with _ | b | n | s | xs | gs
              · rfl
              · simp only [truthy] at hlab
                simp only [Bool.not_eq_true'] at hlab
                subst hlab
                rfl
              · simp only [truthy, bne, Bool.not_not] at hlab
                have : n = 0 := by simpa using hlab
                subst this
                rfl
              · by_cases hse : s = ""
                · subst hse
                  rfl
                · show pyOr (Val.str s) (Val.str ("系列" ++ toString (i + 1))) =
                    Val.str (if s = "" then "系列" ++ toString (i + 1) else s)
                  rw [if_neg hse]
                  simp only [pyOr, truthy]
                  rw [if_pos (by simpa using hse)]
              · have : xs = [] := by simpa [truthy, List.isEmpty_iff] using hlab
                subst this
                rfl
              · have : gs = [] := by simpa [truthy, List.isEmpty_iff] using hlab
                subst this
                rfl
          rw [hhead]
          rfl
      | none => simp [chartDSOk] at hds
      | bool b => simp [chartDSOk] at hds
      | int n => simp [chartDSOk] at hds
      | str s => simp [chartDSOk] at hds
      | list xs => simp [chartDSOk] at hds

theorem bind_ok_zero_if {β : Type} (i : Nat) (A B : Except PyErr β) :
    ((Except.ok 0 : Except PyErr Nat) >>= fun n => if i < n then A else B) = B := by
  rw [ok_bind]
  exact if_neg (Nat.not_lt_zero i)

theorem chart_cell_spec (i : Nat) (ds : Val) (h : chartDSOk ds = true) :
    _chart_cell i ds = .ok (specChartCell i ds) := by
  have hE : _escape_text (Val.str (_stringify_value (Val.str ""))) true = "" := rfl
  have hP : (pure "" : Except PyErr String) = Except.ok "" := rfl
  cases ds with
  | dict dfs =>
      simp only [chartDSOk, Bool.and_eq_true] at h
      obtain ⟨_, hdat⟩ := h
      simp only [_chart_cell, pyGet, ok_bind, specChartCell, dgetD]
      rcases hd : dlookup "data" dfs with _ | v
      · simp [pyOr, truthy, pyLen, bind_ok_zero_if, hE, hP]
      · rw [hd] at hdat
        rcases v with _ | b | n | s | xs | gs
        · simp [pyOr, truthy, pyLen, bind_ok_zero_if, hE, hP]
        · simp only [truthy, Bool.not_eq_true'] at hdat
          subst hdat
          simp [pyOr, truthy, pyLen, bind_ok_zero_if, hE, hP]
        · simp only [truthy, bne, Bool.not_not] at hdat
          have : n = 0 := by simpa using hdat
          subst this
          simp [pyOr, truthy, pyLen, bind_ok_zero_if, hE, hP]
        · have : s = "" := by simpa [truthy] using hdat
          subst this
          simp [pyOr, truthy, pyLen, bind_ok_zero_if, hE, hP]
        · rw [pyOr_list_self]
          simp only [pyLen, ok_bind]
          by_cases hin : i < xs.length
          · rw [if_pos hin, if_pos hin]
            simp only [pyIndex]
            rw [if_pos hin]
            rfl
          · rw [if_neg hin, if_neg hin]
            rfl
        · have : gs = [] := by simpa [truthy, List.isEmpty_iff] using hdat
          subst this
          simp [pyOr, truthy, pyLen, bind_ok_zero_if, hE, hP]
  | none => simp [chartDSOk] at h
  | bool b => simp [chartDSOk] at h
  | int n => simp [chartDSOk] at h
  | str s => simp [chartDSOk] at h
  | list xs => simp [chartDSOk] at h

theorem chart_rows_spec :
    ∀ (Ls : List Val) (i : Nat) (Ds : List Val),
    (∀ ds ∈ Ds, chartDSOk ds = true) →
    _chart_rows i Ds Ls = .ok (specChartRows i Ds Ls) := by
  intro Ls
  induction Ls with
  | nil => intro i Ds _; rfl
  | cons l rest ih =>
      intro i Ds hok
      simp only [_chart_rows, specChartRows]
      rw [mapE_ok (fun ds hds => chart_cell_spec i ds (hok ds hds))]
      rw [ih (i + 1) Ds hok]
      rfl

/-- Claim C7: a chart block whose unwrapped data has non-empty labels and
non-empty (well-shaped) datasets renders as the spec-side table: header
`类别` plus one column per dataset (dataset label, or `系列<N>` when
absent), one row per label, each cell the stringified value of the dataset
at the label's position or empty when the series is shorter. -/
theorem chart_widget_degrades_to_table :
    ∀ (block dv : Val) (dd : List (String × Val)) (Ls Ds : List Val),
    pyGet block "data" = .ok dv →
    _coerce_chart_data (pyOr dv (.dict [])) = .dict dd →
    dlookup "labels" dd = some (.list Ls) →
    Ls ≠ [] →
    dlookup "datasets" dd = some (.list Ds) →
    Ds ≠ [] →
    (∀ ds ∈ Ds, chartDSOk ds = true) →
    _render_chart_as_table block = .ok (specChartTable Ls Ds) := by
  intro block dv dd Ls Ds hget hco hlab hLne hdat hDne hok
  simp only [_render_chart_as_table]
  rw [hget]
  simp only [ok_bind]
  rw [hco]
  simp only [pyGet, ok_bind]
  have hl : dgetD dd "labels" Val.none = Val.list Ls := by simp [dgetD, hlab]
  have hd2 : dgetD dd "datasets" Val.none = Val.list Ds := by simp [dgetD, hdat]
  rw [hl, hd2, pyOr_list_self, pyOr_list_self]
  have hcnd : (!truthy (Val.list Ls) || !truthy (Val.list Ds)) = false := by
    cases Ls with
    | nil => exact absurd rfl hLne
    | cons a as =>
        cases Ds with
        | nil => exact absurd rfl hDne
        | cons b bs => rfl
  rw [hcnd]
  simp only [Bool.false_eq_true, if_false, pyIter, ok_bind]
  rw [chart_headers_spec Ds 0 hok]
  simp only [ok_bind]
  rw [show (Val.str "类别" :: (specChartHeaders 0 Ds).map Val.str) =
    ("类别" :: specChartHeaders 0 Ds).map Val.str from rfl]
  rw [markdown_rowV_strs]
  simp only [ok_bind]
  rw [chart_rows_spec Ls 0 Ds hok]
  simp only [ok_bind, specChartTable, List.length_map, List.length_cons,
    specChartHeaders_length]
  rfl

/-- Claim C7 witness: labels `["Q1","Q2"]` with one dataset
`{label:"Rev", data:[10,20]}` yields the 2-column table with header
`类别, Rev` and rows `Q1,10` / `Q2,20`. -/
theorem chart_widget_degrades_to_table_witness :
    (∀ ds ∈ [Val.dict [("label", Val.str "Rev"),
        ("data", Val.list [Val.int 10, Val.int 20])]], chartDSOk ds = true) ∧
    _render_chart_as_table (Val.dict [("data", Val.dict [
        ("labels", Val.list [Val.str "Q1", Val.str "Q2"]),
        ("datasets", Val.list [Val.dict [("label", Val.str "Rev"),
          ("data", Val.list [Val.int 10, Val.int 20])]])])]) =
      .ok "| 类别 | Rev |\n| --- | --- |\n| Q1 | 10 |\n| Q2 | 20 |" := by
  refine ⟨by decide, ?_⟩
  have h := chart_widget_degrades_to_table
    (Val.dict [("data", Val.dict [
      ("labels", Val.list [Val.str "Q1", Val.str "Q2"]),
      ("datasets", Val.list [Val.dict [("label", Val.str "Rev"),
        ("data", Val.list [Val.int 10, Val.int 20])]])])])
    (Val.dict [
      ("labels", Val.list [Val.str "Q1", Val.str "Q2"]),
      ("datasets", Val.list [Val.dict [("label", Val.str "Rev"),
        ("data", Val.list [Val.int 10, Val.int 20])]])])
    [("labels", Val.list [Val.str "Q1", Val.str "Q2"]),
     ("datasets", Val.list [Val.dict [("label", Val.str "Rev"),
       ("data", Val.list [Val.int 10, Val.int 20])]])]
    [Val.str "Q1", Val.str "Q2"]
    [Val.dict [("label", Val.str "Rev"),
      ("data", Val.list [Val.int 10, Val.int 20])]]
    rfl rfl rfl (by simp) rfl (by simp) (by decide)
  exact h.trans (by rfl)

end BettaFish
